import Mathlib

/-!
# Verification of the libslink SeedLink client core

A shallow embedding, in Lean 4, of the parts of the EarthScope/libslink
sources (src/libslink.h, src/slutils.c, src/network.c, src/statefile.c,
src/genutils.c, src/strutils.c, src/globmatch.c) that are touched by the
specification's claims, together with theorems settling those claims.

Modelling conventions:
* C strings are modelled as `List Char` (no embedded NUL; the terminating
  NUL of a C string is the end of the list).  Raw bytes are `Nat` values
  `< 256`.
* Unsigned 64-bit arithmetic is `Nat` with explicit `% 2^64` where the C
  code can overflow.
* The host is assumed little-endian, matching `sl_littleendianhost` on
  the platforms the library targets; all multi-byte wire fields are
  little-endian reads followed by the conditional swaps the source does.
* Fallible C functions that return `-1` are modelled with `Option`.
* Recursions that the C source expresses as loops are written either
  structurally over the scanned list, or with an explicit fuel argument
  when the C loop's progress measure is not structural; fuel bounds are
  chosen to dominate the loop's iteration count, and where a claim is
  about termination the corresponding theorem shows the fuel is never
  exhausted.

The repository's src tree mixes two evolutions of the library: the
present `libslink.h` is the older one (3.0.0DEV), while `slutils.c` and
`statefile.c` are newer and use declarations (the `netstaid` fields of
`SLstream`/`SLpacketinfo`, `UNINETSTAID`, the JSON payload codes,
`sl_checkversion`, and all of `mseedformat.h`) whose defining header is
not in src.  Definitions for those missing declarations are modelled
from the spec and are marked `Modelled from the spec:` in their doc
comments; everything else is translated from the source files.
-/

namespace Libslink

/-! ## Constants from src/libslink.h -/

/-- `SLHEADSIZE` from src/libslink.h line 184: v3 SeedLink header size. -/
def SLHEADSIZE : Nat := 8

/-- `SLHEADSIZE_EXT` from src/libslink.h line 185: the extended (v4)
SeedLink header size as the source defines it, namely 16. -/
def SLHEADSIZE_EXT : Nat := 16

/-- `SL_MIN_BUFFER` from src/libslink.h line 191: minimum data for
payload detection and tracking, defined as 48 by the source. -/
def SL_MIN_BUFFER : Nat := 48

/-- `SL_UNSETSEQUENCE` (src/libslink.h line 221): `UINT64_MAX`. -/
def SL_UNSETSEQUENCE : Nat := 2 ^ 64 - 1

/-- `SLPAYLOAD_UNKNOWN` (src/libslink.h line 197). -/
def SLPAYLOAD_UNKNOWN : Nat := 0

/-- `SLPAYLOAD_MSEED2INFO` (src/libslink.h line 198). -/
def SLPAYLOAD_MSEED2INFO : Nat := 1

/-- `SLPAYLOAD_MSEED2INFOTERM` (src/libslink.h line 199). -/
def SLPAYLOAD_MSEED2INFOTERM : Nat := 2

/-- `SLPAYLOAD_MSEED2` (src/libslink.h line 200): the character `'2'`. -/
def SLPAYLOAD_MSEED2 : Nat := 50

/-- `SLPAYLOAD_MSEED3` (src/libslink.h line 201): the character `'3'`. -/
def SLPAYLOAD_MSEED3 : Nat := 51

/-- Modelled from the spec: `SLPAYLOAD_JSON`, used by slutils.c but not
declared by the older src/libslink.h; a v4 JSON payload, the character
`'J'`. -/
def SLPAYLOAD_JSON : Nat := 74

/-- Modelled from the spec: `SLPAYLOAD_JSON_INFO`, the v4 JSON INFO
subformat character `'I'` (spec section 4.5: "v4 JSON with subformat
`I`"); not declared by the older src/libslink.h. -/
def SLPAYLOAD_JSON_INFO : Nat := 73

/-- Modelled from the spec: `SLPAYLOAD_JSON_ERROR`, the v4 JSON ERROR
subformat character `'E'` (genutils.c maps it to "ERROR in JSON"); not
declared by the older src/libslink.h. -/
def SLPAYLOAD_JSON_ERROR : Nat := 69

/-- Modelled from the spec: `UNINETSTAID`, the reserved uni-station
sentinel station ID `"XX_UNI"` (spec section 3, "A reserved sentinel
`\x7bXX_UNI\x7d`"); used by slutils.c and statefile.c but not defined in the
older src/libslink.h (which has the separate `UNISTATION`/`UNINETWORK`
codes `"UNI"`/`"XX"`). -/
def UNINETSTAID : List Char := ['X', 'X', '_', 'U', 'N', 'I']

/-! ## Decimal and hexadecimal formatting (sprintf `%llu` / `%llX`)

The C source formats sequence numbers with `sprintf` using `"%" PRIu64`
(decimal) and `"%0" PRIX64` (uppercase hexadecimal, no minimum width).
These are the standard digit expansions, written with a fuel argument so
they reduce by kernel evaluation; `fuel = n` suffices since the digit
count of `n` is at most `n` for positive `n`. -/

/-- The character for a single digit value (0–15), uppercase for 10–15
as produced by `%X`. -/
def digitChar (d : Nat) : Char :=
  match d with
  | 0 => '0' | 1 => '1' | 2 => '2' | 3 => '3' | 4 => '4'
  | 5 => '5' | 6 => '6' | 7 => '7' | 8 => '8' | 9 => '9'
  | 10 => 'A' | 11 => 'B' | 12 => 'C' | 13 => 'D' | 14 => 'E'
  | _ => 'F'

/-- Digit expansion of `n` in base `b` (most significant first), with
fuel; returns `[]` for `n = 0`. -/
def digitsAux (b : Nat) : Nat → Nat → List Char
  | 0, _ => []
  | _ + 1, 0 => []
  | fuel + 1, n => digitsAux b fuel (n / b) ++ [digitChar (n % b)]

/-- Decimal rendering of `n`, as `sprintf "%" PRIu64` produces. -/
def decChars (n : Nat) : List Char :=
  if n = 0 then ['0'] else digitsAux 10 n n

/-- Uppercase hexadecimal rendering of `n`, as `sprintf "%0" PRIX64`
produces (the `0` flag with no width is a no-op). -/
def hexChars (n : Nat) : List Char :=
  if n = 0 then ['0'] else digitsAux 16 n n

/-! ## `sl_hascapability` (src/slutils.c lines 1518–1562)

The capability string is `slconn->capabilities` (or absent); the source
lazily builds `caparray`, a copy with every space replaced by NUL, then
scans it index by index: positions that begin a token (`start == 1`) are
compared by `strcmp` against the candidate.  `strcmp (caparray + idx,
capability) == 0` holds exactly when the token extending from `idx` to
the next NUL equals the candidate.  The scan below walks the
space-to-NUL image of the capability string carrying the `start` state
(`atStart = true` iff `idx = 0` or the previous character was NUL). -/

/-- The NUL character used as the token terminator in `caparray`. -/
def nulChar : Char := Char.ofNat 0

/-- Boolean test `c != NUL`, used to delimit a C string token. -/
def isNotNul (c : Char) : Bool := c != nulChar

/-- Boolean test `c != ' '`. -/
def isNotSpace (c : Char) : Bool := c != ' '

/-- The `caparray` image: spaces replaced by terminating NULs
(src/slutils.c lines 1536–1542). -/
def caparrayOf (caps : List Char) : List Char :=
  caps.map (fun c => if c = ' ' then nulChar else c)

/-- The index scan of src/slutils.c lines 1546–1559: at every position
that starts a capability flag, compare the NUL-terminated token with the
candidate (`strcmp` against the sub-string running to the next NUL). -/
def hascapGo (cap : List Char) : List Char → Bool → Bool
  | [], _ => false
  | c :: cs, atStart =>
    if c = nulChar then hascapGo cap cs true
    else if atStart && (c :: cs).takeWhile isNotNul = cap then true
    else hascapGo cap cs false

/-- `sl_hascapability` (src/slutils.c lines 1518–1562): returns `false`
when no capability string has been stored, otherwise scans the
space-separated capability string for an exact token match. -/
def sl_hascapability (caps : Option (List Char)) (cap : List Char) : Bool :=
  match caps with
  | none => false
  | some capsL => hascapGo cap (caparrayOf capsL) true

/-- Character scan accumulating the current run of non-space characters
(in reverse) while splitting on spaces. -/
def spaceTokensGo : List Char → List Char → List (List Char)
  | [], acc => if acc = [] then [] else [acc.reverse]
  | c :: cs, acc =>
    if c = ' ' then
      if acc = [] then spaceTokensGo cs []
      else acc.reverse :: spaceTokensGo cs []
    else spaceTokensGo cs (c :: acc)

/-- Specification-side notion for claim C10: the space-separated tokens
of a string, i.e. its maximal nonempty runs of non-space characters. -/
def spaceTokens (l : List Char) : List (List Char) :=
  spaceTokensGo l []

lemma isNotSpace_true {c : Char} (h : c ≠ ' ') : isNotSpace c = true := by
  simp [isNotSpace, h]

lemma isNotSpace_false : isNotSpace ' ' = false := by
  simp [isNotSpace]

lemma isNotNul_true {c : Char} (h : c ≠ nulChar) : isNotNul c = true := by
  simp [isNotNul, h]

lemma isNotNul_false : isNotNul nulChar = false := by
  simp [isNotNul]

lemma spaceTokensGo_acc (l : List Char) :
    ∀ acc : List Char, acc ≠ [] →
      spaceTokensGo l acc =
        (acc.reverse ++ l.takeWhile isNotSpace) :: spaceTokens (l.dropWhile isNotSpace) := by
  induction l with
  | nil =>
    intro acc h
    simp [spaceTokensGo, spaceTokens, h]
  | cons c cs ih =>
    intro acc h
    by_cases hc : c = ' '
    · subst hc
      rw [List.takeWhile_cons, List.dropWhile_cons, if_neg (by simp [isNotSpace_false]),
        if_neg (by simp [isNotSpace_false])]
      simp [spaceTokensGo, h, spaceTokens]
    · have h1 : spaceTokensGo (c :: cs) acc = spaceTokensGo cs (c :: acc) := by
        simp [spaceTokensGo, hc]
      rw [h1, ih (c :: acc) (by simp), List.takeWhile_cons, List.dropWhile_cons,
        if_pos (by simp [isNotSpace_true hc]), if_pos (by simp [isNotSpace_true hc])]
      simp

lemma spaceTokens_cons_space (cs : List Char) :
    spaceTokens (' ' :: cs) = spaceTokens cs := by
  simp [spaceTokens, spaceTokensGo]

lemma spaceTokens_cons_nonspace (c : Char) (cs : List Char) (hc : c ≠ ' ') :
    spaceTokens (c :: cs) =
      (c :: cs.takeWhile isNotSpace) :: spaceTokens (cs.dropWhile isNotSpace) := by
  have h1 : spaceTokens (c :: cs) = spaceTokensGo cs [c] := by
    simp [spaceTokens, spaceTokensGo, hc]
  rw [h1, spaceTokensGo_acc cs [c] (by simp)]
  simp

lemma caparrayOf_takeWhile (cs : List Char) (h : nulChar ∉ cs) :
    (caparrayOf cs).takeWhile isNotNul = cs.takeWhile isNotSpace := by
  induction cs with
  | nil => simp [caparrayOf]
  | cons x xs ih =>
    simp only [List.mem_cons, not_or] at h
    have hxs := ih h.2
    by_cases hx : x = ' '
    · subst hx
      have hmap : caparrayOf (' ' :: xs) = nulChar :: caparrayOf xs := by
        simp [caparrayOf]
      rw [hmap, List.takeWhile_cons, List.takeWhile_cons,
        if_neg (by simp [isNotNul_false]), if_neg (by simp [isNotSpace_false])]
    · have hxnul : x ≠ nulChar := fun hx' => h.1 hx'.symm
      have hmap : caparrayOf (x :: xs) = x :: caparrayOf xs := by
        simp [caparrayOf, hx]
      rw [hmap, List.takeWhile_cons, List.takeWhile_cons,
        if_pos (by simp [isNotNul_true hxnul]), if_pos (by simp [isNotSpace_true hx]),
        hxs]

lemma hascapGo_spec (cap : List Char) :
    ∀ caps : List Char, nulChar ∉ caps →
      (hascapGo cap (caparrayOf caps) true = true ↔ cap ∈ spaceTokens caps) ∧
      (hascapGo cap (caparrayOf caps) false = true ↔
        cap ∈ spaceTokens (caps.dropWhile isNotSpace)) := by
  intro caps
  induction caps with
  | nil => intro _; simp [caparrayOf, hascapGo, spaceTokens, spaceTokensGo]
  | cons c cs ih =>
    intro h
    simp only [List.mem_cons, not_or] at h
    obtain ⟨hc0, hcs⟩ := h
    have ih' := ih hcs
    by_cases hc : c = ' '
    · subst hc
      have hmap : caparrayOf (' ' :: cs) = nulChar :: caparrayOf cs := by
        simp [caparrayOf]
      have hdrop : (' ' :: cs).dropWhile isNotSpace = ' ' :: cs := by
        rw [List.dropWhile_cons, if_neg (by simp [isNotSpace_false])]
      constructor
      · rw [hmap]
        show hascapGo cap (caparrayOf cs) true = true ↔ _
        rw [spaceTokens_cons_space]
        exact ih'.1
      · rw [hmap]
        show hascapGo cap (caparrayOf cs) true = true ↔ _
        rw [hdrop, spaceTokens_cons_space]
        exact ih'.1
    · have hcnul : c ≠ nulChar := fun h' => hc0 h'.symm
      have hmap : caparrayOf (c :: cs) = c :: caparrayOf cs := by
        simp [caparrayOf, hc]
      have htw : (c :: caparrayOf cs).takeWhile isNotNul =
          c :: cs.takeWhile isNotSpace := by
        rw [List.takeWhile_cons, if_pos (by simp [isNotNul_true hcnul]),
          caparrayOf_takeWhile cs hcs]
      have hdrop : (c :: cs).dropWhile isNotSpace = cs.dropWhile isNotSpace := by
        rw [List.dropWhile_cons, if_pos (by simp [isNotSpace_true hc])]
      constructor
      · have hunf : hascapGo cap (caparrayOf (c :: cs)) true =
            (if (c :: caparrayOf cs).takeWhile isNotNul = cap then true
             else hascapGo cap (caparrayOf cs) false) := by
          rw [hmap]
          show (if c = nulChar then _ else _) = _
          rw [if_neg hcnul]
          by_cases hcmp : (c :: caparrayOf cs).takeWhile isNotNul = cap <;>
            simp [hcmp]
        rw [hunf, htw, spaceTokens_cons_nonspace c cs hc]
        by_cases heq : c :: cs.takeWhile isNotSpace = cap
        · rw [if_pos heq]
          simp [heq.symm]
        · rw [if_neg heq]
          simp only [List.mem_cons]
          rw [ih'.2]
          constructor
          · exact fun h' => Or.inr h'
          · rintro (h' | h')
            · exact absurd h'.symm heq
            · exact h'
      · have hunf : hascapGo cap (caparrayOf (c :: cs)) false =
            hascapGo cap (caparrayOf cs) false := by
          rw [hmap]
          show (if c = nulChar then _ else _) = _
          rw [if_neg hcnul]
          simp
        rw [hunf, hdrop]
        exact ih'.2

/-- **Claim C10** (confirmed).  `sl_hascapability` returns nonzero iff the
candidate is exactly equal to one of the space-separated tokens of the
stored capability string (so a strict substring or proper prefix of a
token never matches, since it is not itself a token), and returns 0
whenever no capability string has been stored. -/
theorem C10_hascapability_exact_token (caps cap : List Char) (h : nulChar ∉ caps) :
    (sl_hascapability (some caps) cap = true ↔ cap ∈ spaceTokens caps) ∧
      sl_hascapability none cap = false := by
  refine ⟨?_, rfl⟩
  exact (hascapGo_spec cap caps h).1

/-- Witness for C10: on the capability string `"SLPROTO:4.0 TIME"` the
exact token `"TIME"` matches, and the proper prefix `"TIM"` does not. -/
theorem C10_hascapability_exact_token_witness :
    sl_hascapability (some ("SLPROTO:4.0 TIME".data)) ("TIME".data) = true ∧
      sl_hascapability (some ("SLPROTO:4.0 TIME".data)) ("TIM".data) = false := by
  constructor
  · exact ((C10_hascapability_exact_token ("SLPROTO:4.0 TIME".data) ("TIME".data)
      (by decide)).1).mpr (by decide)
  · have h := (C10_hascapability_exact_token ("SLPROTO:4.0 TIME".data) ("TIM".data)
      (by decide)).1
    by_contra hcon
    simp only [Bool.not_eq_false] at hcon
    exact absurd (h.mp hcon) (by decide)

/-! ## Wire framing: `receive_header` (src/slutils.c lines 570–676)

`receive_header` determines a read size from the protocol version (8
bytes for v3 after zero-filling the rest of the 16-byte header buffer,
`SLHEADSIZE_EXT` = 16 bytes for v4), reads exactly that many bytes,
checks for the in-band `"ERROR"`/`"END"` tokens, and then dispatches on
the header signature: `"SLINFO"` (v3 INFO), `"SL"` (v3 data, sequence
number parsed as hexadecimal ASCII), or `"SE"` (v4, binary
little-endian fields).  Wire bytes are modelled as `Nat` values. -/

/-- ASCII bytes of `"ERROR"`. -/
def ERRORbytes : List Nat := [69, 82, 82, 79, 82]

/-- ASCII bytes of `"END"`. -/
def ENDbytes : List Nat := [69, 78, 68]

/-- `INFOSIGNATURE` = `"SLINFO"` (src/libslink.h line 188). -/
def INFOSIGNATUREbytes : List Nat := [83, 76, 73, 78, 70, 79]

/-- `SIGNATURE` = `"SL"` (src/libslink.h line 186). -/
def SIGNATUREbytes : List Nat := [83, 76]

/-- `SIGNATURE_EXT` = `"SE"` (src/libslink.h line 187). -/
def SIGNATURE_EXTbytes : List Nat := [83, 69]

/-- Hexadecimal ASCII digit test, as `strtoul (…, 16)` accepts. -/
def isHexByte (b : Nat) : Bool :=
  (48 ≤ b && b ≤ 57) || (65 ≤ b && b ≤ 70) || (97 ≤ b && b ≤ 102)

/-- Value of one hexadecimal ASCII digit. -/
def hexByteVal (b : Nat) : Nat :=
  if 48 ≤ b && b ≤ 57 then b - 48
  else if 65 ≤ b && b ≤ 70 then b - 55
  else b - 87

/-- Left-to-right accumulation of hexadecimal digits, as `strtoul`
builds its value. -/
def hexRunVal (bs : List Nat) : Nat :=
  bs.foldl (fun acc b => acc * 16 + hexByteVal b) 0

/-- Little-endian value of a byte list (least significant byte
first). -/
def leVal : List Nat → Nat
  | [] => 0
  | b :: bs => b + 256 * leVal bs

/-- Little-endian read of `n` bytes at offset `off`, as the `memcpy`
plus conditional `sl_gswap` of src/slutils.c lines 657–665 produces
(the value is the little-endian interpretation on every host). -/
def readLE (l : List Nat) (off n : Nat) : Nat :=
  leVal ((l.drop off).take n)

/-- The fields `receive_header` fills in `slconn->stat->packetinfo`,
plus `consumed`, the number of bytes it reads from the socket.
`netstaidlength` is an `Option`: the v4 branch copies it from offset 16
of the header buffer, and `none` records that this offset lies outside
the bytes actually read (`SLHEADSIZE_EXT` = 16); in the v3 branches the
field keeps the 0 that `sl_receive` (src/slutils.c line 329) stores
before calling `receive_header`. -/
structure HeaderInfo where
  consumed : Nat
  seqnum : Nat
  payloadlength : Nat
  payloadformat : Nat
  payloadsubformat : Nat
  netstaidlength : Option Nat
  deriving DecidableEq, Repr

/-- `receive_header` (src/slutils.c lines 570–676).  `none` models the
`-1` error return (including the in-band `"ERROR"`/`"END"` tokens,
which also abort the receive loop).  The v3 `strtoul` sequence parse is
modelled as a maximal run of hexadecimal digits from header offset 2
whose terminator must be the NUL left by the `memset` zero fill (the
`*tail` check at line 642); `strtoul`'s acceptance of leading
whitespace and signs is not modelled, as v3 headers carry exactly six
hexadecimal digits there. -/
def receive_header (protoMajor : Nat) (avail : List Nat) : Option HeaderInfo :=
  let readsize? : Option Nat :=
    if protoMajor ≤ 3 && SLHEADSIZE ≤ avail.length then some SLHEADSIZE
    else if protoMajor = 4 && SLHEADSIZE_EXT ≤ avail.length then some SLHEADSIZE_EXT
    else none
  match readsize? with
  | none => none
  | some readsize =>
    let hdr : List Nat :=
      avail.take readsize ++
        (if readsize = SLHEADSIZE then List.replicate (SLHEADSIZE_EXT - SLHEADSIZE) 0
         else [])
    if ERRORbytes.isPrefixOf hdr then none
    else if ENDbytes.isPrefixOf hdr then none
    else if INFOSIGNATUREbytes.isPrefixOf hdr then
      some { consumed := readsize
             seqnum := SL_UNSETSEQUENCE
             payloadlength := 0
             payloadformat :=
               if hdr.get? (SLHEADSIZE - 1) = some 42 then SLPAYLOAD_MSEED2INFO
               else SLPAYLOAD_MSEED2INFOTERM
             payloadsubformat := 0
             netstaidlength := some 0 }
    else if SIGNATUREbytes.isPrefixOf hdr then
      let digits := (hdr.drop 2).takeWhile isHexByte
      let tail := (hdr.drop 2).dropWhile isHexByte
      if tail.head? = some 0 ∨ tail.head? = none then
        some { consumed := readsize
               seqnum := hexRunVal digits
               payloadlength := 0
               payloadformat := SLPAYLOAD_UNKNOWN
               payloadsubformat := 0
               netstaidlength := some 0 }
      else none
    else if SIGNATURE_EXTbytes.isPrefixOf hdr then
      some { consumed := readsize
             seqnum := readLE hdr 8 8
             payloadlength := readLE hdr 4 4
             payloadformat := hdr.getD 2 0
             payloadsubformat := hdr.getD 3 0
             netstaidlength := hdr.get? 16 }
    else none

/-- **Claim C4** (corrected): counterexample.  On the v3 INFO header
`"SLINFO *"` — whose byte 7 *is* `'*'` (ASCII 42) — `receive_header`
sets the payload format to `SLPAYLOAD_MSEED2INFO` (the non-terminated
value), not `SLPAYLOAD_MSEED2INFOTERM` as the claim states: the
ternary at src/slutils.c lines 633–635 maps `'*'` to the
*non*-terminated format. -/
theorem C4_info_star_counterexample :
    (receive_header 3 [83, 76, 73, 78, 70, 79, 32, 42]).map HeaderInfo.payloadformat =
      some SLPAYLOAD_MSEED2INFO ∧
    SLPAYLOAD_MSEED2INFO ≠ SLPAYLOAD_MSEED2INFOTERM := by
  constructor
  · rfl
  · decide

/-- **Claim C4** (corrected): amended claim.  When the receive pipeline
parses a v3 INFO header (magic `"SLINFO"`), it sets the packet's
payload format to the *non-terminated* value `MSEED2Info` exactly when
byte 7 of the 8-byte header is `'*'` (more INFO chunks follow), and to
the terminated value `MSEED2InfoTerm` otherwise. -/
theorem C4_info_star_amended (avail : List Nat)
    (hlen : 8 ≤ avail.length)
    (hsig : avail.take 6 = INFOSIGNATUREbytes) :
    (receive_header 3 avail).map HeaderInfo.payloadformat =
      some (if avail.get? 7 = some 42 then SLPAYLOAD_MSEED2INFO
            else SLPAYLOAD_MSEED2INFOTERM) := by
  rcases avail with _ | ⟨a0, _ | ⟨a1, _ | ⟨a2, _ | ⟨a3, _ | ⟨a4, _ | ⟨a5, _ | ⟨a6,
    _ | ⟨a7, rest⟩⟩⟩⟩⟩⟩⟩⟩ <;> simp only [List.length_nil, List.length_cons] at hlen <;>
    try omega
  simp only [List.take_succ_cons, List.take_zero, INFOSIGNATUREbytes,
    List.cons.injEq, and_true] at hsig
  obtain ⟨h0, h1, h2, h3, h4, h5⟩ := hsig
  subst h0 h1 h2 h3 h4 h5
  have hcond : (3 ≤ 3 && decide (SLHEADSIZE ≤
      (83 :: 76 :: 73 :: 78 :: 70 :: 79 :: a6 :: a7 :: rest).length)) = true := by
    simp [SLHEADSIZE]
  unfold receive_header
  by_cases ha7 : a7 = 42 <;>
    simp [SLHEADSIZE, SLHEADSIZE_EXT, ERRORbytes, ENDbytes, INFOSIGNATUREbytes,
      SIGNATUREbytes, SIGNATURE_EXTbytes, List.isPrefixOf, List.take_succ_cons, ha7]

/-- Witness for C4's amended claim at the non-terminal header
`"SLINFO  "` (byte 7 a space, so more chunks do not follow and the
format is the terminated value). -/
theorem C4_info_star_amended_witness :
    (receive_header 3 [83, 76, 73, 78, 70, 79, 32, 32]).map HeaderInfo.payloadformat =
      some (if ([83, 76, 73, 78, 70, 79, 32, 32] : List Nat).get? 7 = some 42 then
              SLPAYLOAD_MSEED2INFO
            else SLPAYLOAD_MSEED2INFOTERM) :=
  C4_info_star_amended [83, 76, 73, 78, 70, 79, 32, 32] (by decide) (by decide)

/-- **Claim C5** (code bug exhibit).  The claim — and the spec — say the
v4 fixed header is 17 bytes with the station-ID length at offset 16.
The source's `SLHEADSIZE_EXT` (src/libslink.h line 185) is 16, so
`receive_header` consumes only 16 header bytes for a v4 packet, yet it
still copies `netstaidlength` from offset 16 of the header buffer
(src/slutils.c line 659) — one byte past the bytes it read (and past
the 16-byte `header` array of the `SLpacketinfo` in src/libslink.h):
the out-of-range read is the `none` in the last conjunct.  The v3
header size of 8 is as claimed. -/
theorem C5_v4_header_consumes_16 (avail : List Nat)
    (hlen : SLHEADSIZE_EXT ≤ avail.length)
    (hsig : avail.take 2 = SIGNATURE_EXTbytes) :
    SLHEADSIZE = 8 ∧ SLHEADSIZE_EXT = 16 ∧
    (receive_header 4 avail).map HeaderInfo.consumed = some 16 ∧
    (receive_header 4 avail).map HeaderInfo.netstaidlength = some none := by
  rcases avail with _ | ⟨a0, _ | ⟨a1, rest⟩⟩
  · simp [SLHEADSIZE_EXT] at hlen
  · simp [SLHEADSIZE_EXT] at hlen
  simp only [List.take_succ_cons, List.take_zero, SIGNATURE_EXTbytes,
    List.cons.injEq, and_true] at hsig
  obtain ⟨h0, h1⟩ := hsig
  subst h0 h1
  simp only [SLHEADSIZE_EXT, List.length_cons] at hlen
  have hr : 14 ≤ rest.length := by omega
  have hget : ((83 : Nat) :: 69 :: rest.take 14).get? 16 = none := by
    apply List.get?_eq_none.mpr
    simp only [List.length_cons, List.length_take]
    omega
  refine ⟨rfl, rfl, ?_, ?_⟩ <;>
  · unfold receive_header
    simp [SLHEADSIZE, SLHEADSIZE_EXT, hr, ERRORbytes, ENDbytes, INFOSIGNATUREbytes,
      SIGNATUREbytes, SIGNATURE_EXTbytes, List.isPrefixOf, List.cons_prefix_cons,
      hget]

/-- Witness for C5 at a concrete 17-byte v4 wire header: `"SE"`, format
`'2'`, subformat `'D'`, payload length 512, sequence 100, and a
station-ID length byte of 7 at offset 16 — which the code never
reads as part of the header. -/
theorem C5_v4_header_consumes_16_witness :
    (receive_header 4
        [83, 69, 50, 68, 0, 2, 0, 0, 100, 0, 0, 0, 0, 0, 0, 0, 7]).map
        HeaderInfo.consumed = some 16 ∧
    (receive_header 4
        [83, 69, 50, 68, 0, 2, 0, 0, 100, 0, 0, 0, 0, 0, 0, 0, 7]).map
        HeaderInfo.netstaidlength = some none :=
  ⟨(C5_v4_header_consumes_16 _ (by decide) (by decide)).2.2.1,
   (C5_v4_header_consumes_16 _ (by decide) (by decide)).2.2.2⟩

/-! ## Payload detector: `detect` (src/slutils.c lines 1596–1695)

`detect` classifies a v3 payload prefix as miniSEED 3 or miniSEED 2 and
determines the record length: from the miniSEED 3 fixed header, or by
walking the miniSEED 2 blockette chain looking for a 1000 blockette.
The miniSEED signature macros come from `mseedformat.h`, which is not
in src; they are modelled from the spec (section 4.2 and the glossary)
together with the field layout fixed by the `sl_fsdh_s`,
`sl_blkt_1000_s` structs of src/libslink.h and the offsets that
src/slutils.c's `update_stream` itself reads. -/

/-- Byte at index `i`, 0 beyond the list (C reads past the collected
prefix stay inside the allocated buffer; their values are unspecified
and modelled as 0). -/
def byteAt (l : List Nat) (i : Nat) : Nat :=
  (l.get? i).getD 0

/-- Big-endian value of a byte list (most significant byte first). -/
def beVal (l : List Nat) : Nat :=
  l.foldl (fun a b => a * 256 + b) 0

/-- A 16-bit read at `off`: native little-endian `memcpy` followed by
`sl_gswap2` when `swapflag` is set (`HO2u`), i.e. a big-endian read
when swapping. -/
def read16 (l : List Nat) (off : Nat) (swap : Bool) : Nat :=
  if swap then beVal ((l.drop off).take 2) else leVal ((l.drop off).take 2)

/-- `MS_ISVALIDYEARDAY`: sane year and day-of-year, exactly the test
src/slutils.c line 1019 spells out (`year < 1900 || year > 2100 ||
yday < 1 || yday > 366` negated). -/
def MS_ISVALIDYEARDAY (y d : Nat) : Bool :=
  (1900 ≤ y && y ≤ 2100) && (1 ≤ d && d ≤ 366)

/-- ASCII decimal digit test. -/
def isDigitByte (b : Nat) : Bool := 48 ≤ b && b ≤ 57

/-- A miniSEED 2 sequence-number byte: digit, space, or NUL. -/
def isSeqByte (b : Nat) : Bool := isDigitByte b || b = 32 || b = 0

/-- Modelled from the spec: `MS2_ISVALIDHEADER` of the missing
`mseedformat.h` — the miniSEED 2 fixed-header signature (spec section
4.2 / glossary: 48-byte fixed header): six sequence-number characters,
a `D`/`R`/`Q`/`M` quality indicator at byte 6, space-or-NUL at byte 7,
and sane hour/minute/second fields (offsets 24–26 per `sl_fsdh_s` in
src/libslink.h). -/
def MS2_ISVALIDHEADER (l : List Nat) : Bool :=
  (isSeqByte (byteAt l 0) && isSeqByte (byteAt l 1) && isSeqByte (byteAt l 2) &&
   isSeqByte (byteAt l 3) && isSeqByte (byteAt l 4) && isSeqByte (byteAt l 5)) &&
  (byteAt l 6 = 68 || byteAt l 6 = 82 || byteAt l 6 = 81 || byteAt l 6 = 77) &&
  (byteAt l 7 = 32 || byteAt l 7 = 0) &&
  (byteAt l 24 ≤ 23 && byteAt l 25 ≤ 59 && byteAt l 26 ≤ 60)

/-- Modelled from the spec: `MS3_ISVALIDHEADER` of the missing
`mseedformat.h` — the miniSEED 3 signature `'M'`, `'S'`, format
version 3. -/
def MS3_ISVALIDHEADER (l : List Nat) : Bool :=
  byteAt l 0 = 77 && byteAt l 1 = 83 && byteAt l 2 = 3

/-- One iteration of the miniSEED 2 blockette-chain loop
(src/slutils.c lines 1638–1671), at blockette offset `o`. -/
inductive BlktStep where
  /-- The loop condition (`o ≠ 0 && o > 47 && o ≤ buflen`) fails. -/
  | exitLoop : BlktStep
  /-- A non-truncated 1000 blockette: record length `2 ^ reclenExp`. -/
  | found (reclen : Nat) : BlktStep
  /-- The invalid-offset safety check fires: immediate `-1` return. -/
  | invalidOffset : BlktStep
  /-- Walk on to the next blockette offset. -/
  | step (next : Nat) : BlktStep
  deriving DecidableEq, Repr

/-- The body of the blockette-chain loop at offset `o` (src/slutils.c
lines 1638–1671): read `(blkt_type, next_blkt)`, stop on a complete
1000 blockette, error on a non-advancing non-zero next offset,
otherwise move to `next_blkt`. -/
def blktStep (l : List Nat) (buflen : Nat) (swap : Bool) (o : Nat) : BlktStep :=
  if o ≠ 0 ∧ 47 < o ∧ o ≤ buflen then
    let ty := read16 l o swap
    let nx := read16 l (o + 2) swap
    if ty = 1000 ∧ o + 8 ≤ buflen then .found (2 ^ byteAt l (o + 6))
    else if nx ≠ 0 ∧ (nx < 4 ∨ nx - 4 ≤ o) then .invalidOffset
    else .step nx
  else .exitLoop

/-- Outcome of the full blockette walk. -/
inductive BlktWalkResult where
  /-- Loop exited without finding a 1000 blockette (`reclen` stays 0). -/
  | noB1000 : BlktWalkResult
  /-- 1000 blockette found: the record length. -/
  | foundLen (reclen : Nat) : BlktWalkResult
  /-- The invalid-offset safety check fired (`return -1`). -/
  | invalidOffset : BlktWalkResult
  deriving DecidableEq, Repr

/-- The blockette-chain loop, with fuel consumed only when the walk
moves to a further blockette; `none` marks fuel exhaustion, which
claim C8's theorem shows cannot happen when `fuel ≥ buflen + 1 - o`
(every continuing iteration strictly increases the offset, which the
loop condition bounds by `buflen`). -/
def blktWalk (l : List Nat) (buflen : Nat) (swap : Bool) :
    Nat → Nat → Option BlktWalkResult
  | fuel, o =>
    match blktStep l buflen swap o with
    | .exitLoop => some .noB1000
    | .found r => some (.foundLen r)
    | .invalidOffset => some .invalidOffset
    | .step n =>
      match fuel with
      | 0 => none
      | fuel + 1 => blktWalk l buflen swap fuel n

/-- `detect` (src/slutils.c lines 1596–1695) as the pair
`(reclen, payloadformat)`.  Notes kept faithful to the source:
* a buffer shorter than `SL_MIN_BUFFER` is rejected up front
  (line 1611);
* in the miniSEED 2 branch `reclen` is initialised to 0 (line 1629), so
  the 64-byte-offset next-header probe of lines 1676–1691, guarded by
  `reclen == -1`, is unreachable and therefore not modelled;
* byte-swap detection is the native year/day read sanity check of
  line 1632;
* the walk is run with fuel `buflen + 1`, which claim C8's theorem
  proves sufficient; its exhaustion case is mapped to `-1`. -/
def detect (l : List Nat) (buflen : Nat) : Int × Nat :=
  if buflen < SL_MIN_BUFFER then (-1, SLPAYLOAD_UNKNOWN)
  else if MS3_ISVALIDHEADER l then
    (((40 : Int) + byteAt l 33 + readLE l 34 2 + readLE l 36 4), SLPAYLOAD_MSEED3)
  else if MS2_ISVALIDHEADER l then
    let swap := !MS_ISVALIDYEARDAY (readLE l 20 2) (readLE l 22 2)
    let o0 := read16 l 46 swap
    match blktWalk l buflen swap (buflen + 1) o0 with
    | some (.foundLen r) => ((r : Int), SLPAYLOAD_MSEED2)
    | some .noB1000 => (0, SLPAYLOAD_MSEED2)
    | some .invalidOffset => (-1, SLPAYLOAD_MSEED2)
    | none => (-1, SLPAYLOAD_MSEED2)
  else (-1, SLPAYLOAD_UNKNOWN)

/-- **Claim C8** (confirmed).  The miniSEED 2 blockette-chain walk
terminates: (1) when the loop is active and no complete 1000 blockette
stops it, a non-zero next offset that does not advance strictly beyond
the current blockette's 4-byte header (`next < 4` or
`next - 4 ≤ offset`) is an immediate error return; (2) every
continuing iteration moves to a strictly larger offset (a zero next
offset ends the loop at once via the loop condition); and (3) the walk
with fuel at least `buflen + 1 - o` never exhausts its fuel — the
offset strictly increases and is bounded by the buffer length. -/
theorem C8_blockette_walk_terminates (l : List Nat) (buflen : Nat) (swap : Bool) :
    (∀ o, o ≠ 0 → 47 < o → o ≤ buflen →
      ¬(read16 l o swap = 1000 ∧ o + 8 ≤ buflen) →
      read16 l (o + 2) swap ≠ 0 →
      (read16 l (o + 2) swap < 4 ∨ read16 l (o + 2) swap - 4 ≤ o) →
      blktStep l buflen swap o = .invalidOffset) ∧
    (∀ o n, blktStep l buflen swap o = .step n → n ≠ 0 → o < n) ∧
    (∀ fuel o, buflen + 1 ≤ fuel + o →
      blktWalk l buflen swap fuel o ≠ none) := by
  refine ⟨?_, ?_, ?_⟩
  · intro o h0 h47 hb hnot1000 hnx hbad
    unfold blktStep
    rw [if_pos ⟨h0, h47, hb⟩, if_neg hnot1000, if_pos ⟨hnx, hbad⟩]
  · intro o n hstep hn
    unfold blktStep at hstep
    by_cases hg : o ≠ 0 ∧ 47 < o ∧ o ≤ buflen
    · rw [if_pos hg] at hstep
      by_cases h1000 : read16 l o swap = 1000 ∧ o + 8 ≤ buflen
      · rw [if_pos h1000] at hstep
        exact absurd hstep (by simp)
      · rw [if_neg h1000] at hstep
        by_cases hbad : read16 l (o + 2) swap ≠ 0 ∧
            (read16 l (o + 2) swap < 4 ∨ read16 l (o + 2) swap - 4 ≤ o)
        · rw [if_pos hbad] at hstep
          exact absurd hstep (by simp)
        · rw [if_neg hbad] at hstep
          have hn' : n = read16 l (o + 2) swap := by
            injection hstep with h
            exact h.symm
          subst hn'
          push_neg at hbad
          have := hbad hn
          omega
    · rw [if_neg hg] at hstep
      exact absurd hstep (by simp)
  · intro fuel
    induction fuel with
    | zero =>
      intro o hfo
      have hexit : blktStep l buflen swap o = .exitLoop := by
        unfold blktStep
        rw [if_neg (by omega)]
      unfold blktWalk
      rw [hexit]
      simp
    | succ fuel ih =>
      intro o hfo
      unfold blktWalk
      rcases hstep : blktStep l buflen swap o with _ | r | _ | n
      · simp
      · simp
      · simp
      · show blktWalk l buflen swap fuel n ≠ none
        by_cases hn : n = 0
        · subst hn
          have hexit : blktStep l buflen swap 0 = .exitLoop := by
            unfold blktStep
            rw [if_neg (by omega)]
          unfold blktWalk
          rw [hexit]
          simp
        · have hlt : o < n := by
            unfold blktStep at hstep
            by_cases hg : o ≠ 0 ∧ 47 < o ∧ o ≤ buflen
            · rw [if_pos hg] at hstep
              by_cases h1000 : read16 l o swap = 1000 ∧ o + 8 ≤ buflen
              · rw [if_pos h1000] at hstep
                exact absurd hstep (by simp)
              · rw [if_neg h1000] at hstep
                by_cases hbad : read16 l (o + 2) swap ≠ 0 ∧
                    (read16 l (o + 2) swap < 4 ∨ read16 l (o + 2) swap - 4 ≤ o)
                · rw [if_pos hbad] at hstep
                  exact absurd hstep (by simp)
                · rw [if_neg hbad] at hstep
                  have hn' : n = read16 l (o + 2) swap := by
                    injection hstep with h
                    exact h.symm
                  subst hn'
                  push_neg at hbad
                  have := hbad hn
                  omega
            · rw [if_neg hg] at hstep
              exact absurd hstep (by simp)
          exact ih n (by omega)

/-- Witness for C8 on a concrete 64-byte miniSEED 2 record whose
blockette chain has one non-1000 blockette at offset 48 pointing
backwards (`next_blkt = 48`): the safety check fires, the step from 48
is never a `.step`, and the walk completes without exhausting fuel. -/
theorem C8_blockette_walk_terminates_witness :
    blktStep
        ((List.replicate 48 (0 : Nat)) ++ [0, 200, 48, 0] ++ List.replicate 12 0)
        64 false 48 = .invalidOffset ∧
    blktWalk ((List.replicate 48 (0 : Nat)) ++ [0, 200, 48, 0] ++ List.replicate 12 0)
        64 false 65 48 ≠ none := by
  constructor
  · exact (C8_blockette_walk_terminates _ 64 false).1 48 (by decide) (by decide)
      (by decide) (by decide) (by decide) (by decide)
  · exact (C8_blockette_walk_terminates _ 64 false).2.2 65 48 (by omega)

/-! ## `receive_v3payload` (src/slutils.c lines 691–869)

The v3 payload loop's socket reads are modelled by their pure control
decisions: the entry guard that refuses to start until a detectable
prefix is possible, the per-iteration read-size computation, and the
condition under which the loop invokes the payload detector. -/

/-- The entry guard of src/slutils.c lines 712–727: on the first read of
a packet (`payloadcollected == 0`), a destination buffer smaller than
`SL_MIN_BUFFER` is an error (`none`), and fewer than `SL_MIN_BUFFER`
available bytes returns 0 without reading (`some false`); otherwise the
loop proceeds (`some true`). -/
def v3_entry_guard (plbuffersize bytesavailable payloadcollected : Nat) : Option Bool :=
  if payloadcollected = 0 then
    if plbuffersize < SL_MIN_BUFFER then none
    else if bytesavailable < SL_MIN_BUFFER then some false
    else some true
  else some true

/-- The `nextpow2` computation of src/slutils.c lines 751–754: double
from 32 until at least `c` (fuel `c` dominates the doubling count). -/
def nextPow2Loop : Nat → Nat → Nat → Nat
  | 0, np, _ => np
  | fuel + 1, np, c => if np < c then nextPow2Loop fuel (np * 2) c else np

/-- Read-size selection of src/slutils.c lines 741–768: while the
payload length is unknown, collect up to `SL_MIN_BUFFER`, then up to the
next power of two; with a known length, read the remainder; otherwise
(`payloadlength ≤ payloadcollected` with a known length) error. -/
def v3_readsize (payloadlength payloadcollected : Nat) : Option Nat :=
  if payloadlength = 0 then
    if payloadcollected < SL_MIN_BUFFER then some (SL_MIN_BUFFER - payloadcollected)
    else some (nextPow2Loop payloadcollected 32 payloadcollected - payloadcollected)
  else if payloadcollected < payloadlength then some (payloadlength - payloadcollected)
  else none

/-- The detector-invocation condition of src/slutils.c lines 798–799:
after a read, `detect` is called iff the payload length is still
unknown and at least `SL_MIN_BUFFER` bytes of the payload have been
collected. -/
def v3_detect_invoked (payloadlength payloadcollected : Nat) : Bool :=
  payloadlength = 0 && SL_MIN_BUFFER ≤ payloadcollected

/-- **Claim C7** (corrected): counterexample.  The source's required
minimum is `SL_MIN_BUFFER` = 48, not 64: the detector *is* invoked with
exactly 48 bytes collected (48 < 64), and detection on a 48-byte
prefix — here a valid miniSEED 2 fixed header with no blockettes — is
not an error (it returns 0, "detected but could not determine
length"). -/
theorem C7_min_buffer_counterexample :
    v3_detect_invoked 0 48 = true ∧ ¬(64 ≤ 48) ∧
    detect
        ([48, 48, 48, 48, 48, 49, 68, 32] ++ List.replicate 12 65 ++
          [208, 7, 1, 0, 0, 0, 0, 0] ++ List.replicate 20 0)
        48 = (0, SLPAYLOAD_MSEED2) ∧
    (0 : Int) ≠ -1 := by
  refine ⟨by decide, by decide, ?_, by decide⟩
  decide

/-- **Claim C7** (corrected): amended claim.  For every v3 packet the
payload detector is invoked only once at least `SL_MIN_BUFFER` = 48
bytes of the payload prefix have been collected (the entry guard also
refuses to read at all while fewer than 48 bytes are available for a
fresh packet), and detection on a prefix shorter than 48 bytes is an
error. -/
theorem C7_min_buffer_amended (paylen collected plbufsz avail buflen : Nat)
    (l : List Nat) (hinv : v3_detect_invoked paylen collected = true)
    (hshort : buflen < SL_MIN_BUFFER) (hfresh : avail < SL_MIN_BUFFER)
    (hbuf : SL_MIN_BUFFER ≤ plbufsz) :
    SL_MIN_BUFFER = 48 ∧
    48 ≤ collected ∧
    (detect l buflen).1 = -1 ∧
    v3_entry_guard plbufsz avail 0 = some false := by
  refine ⟨rfl, ?_, ?_, ?_⟩
  · have h := hinv
    simp only [v3_detect_invoked, Bool.and_eq_true, decide_eq_true_eq] at h
    exact h.2
  · unfold detect
    rw [if_pos hshort]
  · unfold v3_entry_guard
    rw [if_pos rfl, if_neg (by omega), if_pos hfresh]

/-- Witness for C7's amended claim: detector invoked at exactly 48
collected bytes, a 47-byte buffer rejected by `detect`, and a fresh
packet with 47 available bytes not read yet. -/
theorem C7_min_buffer_amended_witness :
    SL_MIN_BUFFER = 48 ∧ 48 ≤ 48 ∧
    (detect [1, 2, 3] 47).1 = -1 ∧
    v3_entry_guard 512 47 0 = some false :=
  C7_min_buffer_amended 0 48 512 47 47 [1, 2, 3] (by decide) (by decide)
    (by decide) (by decide)

/-! ## Glob matcher: `sl_globmatch` (src/globmatch.c)

The iterative matcher with `star_p`/`star_s` backtracking.  The saved
backtracking state is the pattern suffix just after the last `'*'`
(`star_p + 1`) and the string suffix recorded when that star was seen
(`star_s`).  The loop is written with fuel, one unit per iteration of
the C `for (;;)` loop; `sl_globmatch` supplies
`(|string| + 2) * (|pattern| + 2)` units, which dominates the
iteration count: between two backtracks every iteration consumes at
least one pattern character (at most `|pattern| + 1` iterations), and
each backtrack permanently advances `star_s` by one string character
(at most `|string| + 1` backtracks). -/

/-- The character-class parser `_match_charclass` loop (src/globmatch.c
lines 184–206): `none` models reaching the end of the pattern with no
closing `']'` (malformed class, never a match).  Each iteration drops
at least one pattern character, so the fuel `|p| + 1` supplied by
`matchCharClass` always reaches the empty-pattern or `']'` case. -/
def ccLoop (c : Char) : Nat → List Char → Bool → Option (Bool × List Char)
  | 0, _, _ => none
  | _ + 1, [], _ => none
  | fuel + 1, p0 :: ps, matched =>
    if p0 = ']' then some (matched, ps)
    else
      match ps with
      | p1 :: p2 :: ps' =>
        if p1 = '-' ∧ p2 ≠ ']' ∧ p0 ≤ p2 then
          ccLoop c fuel ps' (matched || (p0 ≤ c ∧ c ≤ p2))
        else ccLoop c fuel ps (matched || c = p0)
      | _ => ccLoop c fuel ps (matched || c = p0)

/-- `_match_charclass` (src/globmatch.c lines 151–218): `p` points just
past `'['`; returns whether `c` matches the class and the pattern rest
past the closing `']'`.  A malformed class (no `']'`) returns no match
regardless of negation, and its returned rest is unused by the caller
(which backtracks on a failed match). -/
def matchCharClass (c : Char) (p : List Char) : Bool × List Char :=
  let (negate, p1) :=
    match p with
    | '^' :: rest => (true, rest)
    | '!' :: rest => (true, rest)
    | _ => (false, p)
  let (m0, p2) :=
    match p1 with
    | ']' :: rest => ((c = ']' : Bool), rest)
    | _ => (false, p1)
  let (m1, p3) :=
    match p2 with
    | '-' :: rest => ((m0 || c = '-'), rest)
    | _ => (m0, p2)
  match ccLoop c (p3.length + 1) p3 m1 with
  | none => (false, [])
  | some (m, rest) => (if negate then !m else m, rest)

/-- Boolean test `c = '*'`. -/
def isStar (c : Char) : Bool := c = '*'

/-- The main matcher loop of `sl_globmatch` (src/globmatch.c lines
51–137), one fuel unit per iteration; fuel exhaustion (unreachable with
the bound used by `sl_globmatch`) yields `false`. -/
def globLoop : Nat → List Char → List Char → Option (List Char × List Char) → Bool
  | 0, _, _, _ => false
  | fuel + 1, s, p, star =>
    match p with
    | [] =>
      match s with
      | [] => true
      | _ =>
        match star with
        | none => false
        | some (sp, ss) =>
          match ss with
          | [] => false
          | _ :: ss' => globLoop fuel ss' sp (some (sp, ss'))
    | '?' :: p' =>
      match s with
      | _ :: s' => globLoop fuel s' p' star
      | [] =>
        match star with
        | none => false
        | some (sp, ss) =>
          match ss with
          | [] => false
          | _ :: ss' => globLoop fuel ss' sp (some (sp, ss'))
    | '*' :: p' =>
      let p'' := p'.dropWhile isStar
      match p'' with
      | [] => true
      | _ =>
        let nx : Char :=
          match p'' with
          | '\\' :: x :: _ => x
          | x :: _ => x
          | [] => '*'
        let s' := if nx ≠ '?' ∧ nx ≠ '[' ∧ nx ≠ '*' then s.dropWhile (fun c => c != nx)
                  else s
        globLoop fuel s' p'' (some (p'', s'))
    | '[' :: p' =>
      match s with
      | c :: s' =>
        let mc := matchCharClass c p'
        if mc.1 then globLoop fuel s' mc.2 star
        else
          match star with
          | none => false
          | some (sp, ss) =>
            match ss with
            | [] => false
            | _ :: ss' => globLoop fuel ss' sp (some (sp, ss'))
      | [] =>
        match star with
        | none => false
        | some (sp, ss) =>
          match ss with
          | [] => false
          | _ :: ss' => globLoop fuel ss' sp (some (sp, ss'))
    | '\\' :: p' =>
      let (lit, prest) :=
        match p' with
        | x :: p'' => (x, p'')
        | [] => ('\\', ([] : List Char))
      match s with
      | c :: s' =>
        if c = lit then globLoop fuel s' prest star
        else
          match star with
          | none => false
          | some (sp, ss) =>
            match ss with
            | [] => false
            | _ :: ss' => globLoop fuel ss' sp (some (sp, ss'))
      | [] =>
        match star with
        | none => false
        | some (sp, ss) =>
          match ss with
          | [] => false
          | _ :: ss' => globLoop fuel ss' sp (some (sp, ss'))
    | pc :: p' =>
      match s with
      | c :: s' =>
        if c = pc then globLoop fuel s' p' star
        else
          match star with
          | none => false
          | some (sp, ss) =>
            match ss with
            | [] => false
            | _ :: ss' => globLoop fuel ss' sp (some (sp, ss'))
      | [] =>
        match star with
        | none => false
        | some (sp, ss) =>
          match ss with
          | [] => false
          | _ :: ss' => globLoop fuel ss' sp (some (sp, ss'))

/-- `sl_globmatch` (src/globmatch.c lines 38–138): does `string` match
the globbing `pattern` (`*`, `?`, `[...]`, `\` escapes)? -/
def sl_globmatch (string pattern : List Char) : Bool :=
  globLoop ((string.length + 2) * (pattern.length + 2)) string pattern none

example : sl_globmatch "IU_ANMO".data "IU_ANMO".data = true := by decide
example : sl_globmatch "IU_ANMO".data "IU_*".data = true := by decide
example : sl_globmatch "IU_ANMO".data "IU_ANM?".data = true := by decide
example : sl_globmatch "GE_APE".data "IU_*".data = false := by decide
example : sl_globmatch "IU_ANMO".data "IU_AN*X".data = false := by decide
example : sl_globmatch "IU_ANMO".data "[HI]U_[A-C]NMO".data = true := by decide
example : sl_globmatch "IU_ANMO".data "[!I]U_*".data = false := by decide

/-! ## Stream table and `update_stream` (src/slutils.c lines 976–1131)

A stream-table entry (`SLstream` of the evolution slutils.c belongs to:
`netstaid`, `selectors`, `seqnum`, `timestamp`).  `update_stream`
builds a timestamp from the packet payload's fixed header, back-fills
the packet's NET_STA ID from the payload when the header did not carry
one, and then updates the chain: the uni-station head entry matches
any packet; otherwise every glob-matching entry is updated and zero
matches is an error. -/

/-- A stream-chain entry as slutils.c/statefile.c use it.  The
`netstaid` field holds up to 21 characters (`char netstaid[22]`), the
`timestamp` up to 30 (`char timestamp[31]`). -/
structure SLstream where
  netstaid : List Char
  selectors : Option (List Char)
  seqnum : Nat
  timestamp : List Char
  deriving DecidableEq, Repr

/-- `sl_doy2md` month loop (src/genutils.c lines 83–93): subtract month
lengths until the remaining day fits; returns `(month, mday)`. -/
def doy2mdLoop : List Nat → Nat → Nat → Option (Nat × Nat)
  | [], _, _ => none
  | d :: ds, idx, j => if j ≤ d then some (idx + 1, j) else doy2mdLoop ds (idx + 1) (j - d)

/-- `sl_doy2md` (src/genutils.c lines 56–96): month and day-of-month
from year and day-of-year; `none` models the `-1` error return (year
out of 1900–2100, or day-of-year out of range). -/
def sl_doy2md (year jday : Nat) : Option (Nat × Nat) :=
  if year < 1900 ∨ 2100 < year then none
  else
    let leap : Nat :=
      if (year % 4 = 0 ∧ year % 100 ≠ 0) ∨ year % 400 = 0 then 1 else 0
    if 365 + leap < jday ∨ jday = 0 then none
    else doy2mdLoop [31, 28 + leap, 31, 30, 31, 30, 31, 31, 30, 31, 30, 31] 0 jday

example : sl_doy2md 2024 60 = some (2, 29) := by decide
example : sl_doy2md 2023 60 = some (3, 1) := by decide
example : sl_doy2md 2023 366 = none := by decide

/-- Zero padding to a minimum width, as `"%0Nd"` formats a
non-negative value. -/
def zeroPad (w : Nat) (s : List Char) : List Char :=
  List.replicate (w - s.length) '0' ++ s

/-- The miniSEED 2 branch of `update_stream` (src/slutils.c lines
1008–1033): read the fixed-header time fields (year at offset 20,
day-of-year at 22, hour/min/sec at 24–26, fractional seconds at 28),
byte-swap when the native year/day read is insane, and format
`"%04d-%02d-%02dT%02d:%02d:%02d.%04dZ"`.  A failing `sl_doy2md` leaves
the caller's `month = mday = 0` untouched. -/
def mseed2_timestamp (payload : List Nat) : List Char :=
  let swap := !MS_ISVALIDYEARDAY (readLE payload 20 2) (readLE payload 22 2)
  let year := read16 payload 20 swap
  let yday := read16 payload 22 swap
  let fsec := read16 payload 28 swap
  let md := (sl_doy2md year yday).getD (0, 0)
  zeroPad 4 (decChars year) ++ ['-'] ++ zeroPad 2 (decChars md.1) ++ ['-'] ++
    zeroPad 2 (decChars md.2) ++ ['T'] ++ zeroPad 2 (decChars (byteAt payload 24)) ++
    [':'] ++ zeroPad 2 (decChars (byteAt payload 25)) ++ [':'] ++
    zeroPad 2 (decChars (byteAt payload 26)) ++ ['.'] ++ zeroPad 4 (decChars fsec) ++
    ['Z']

/-- The miniSEED 3 branch of `update_stream` (src/slutils.c lines
1047–1072): time fields at offsets 8/10/12/13/14, nanoseconds at 4,
swapped only on a big-endian host (never, on the little-endian host
modelled here), formatted with `%09d` nanoseconds. -/
def mseed3_timestamp (payload : List Nat) : List Char :=
  let year := readLE payload 8 2
  let yday := readLE payload 10 2
  let nsec := readLE payload 4 4
  let md := (sl_doy2md year yday).getD (0, 0)
  zeroPad 4 (decChars year) ++ ['-'] ++ zeroPad 2 (decChars md.1) ++ ['-'] ++
    zeroPad 2 (decChars md.2) ++ ['T'] ++ zeroPad 2 (decChars (byteAt payload 12)) ++
    [':'] ++ zeroPad 2 (decChars (byteAt payload 13)) ++ [':'] ++
    zeroPad 2 (decChars (byteAt payload 14)) ++ ['.'] ++ zeroPad 9 (decChars nsec) ++
    ['Z']

/-- The timestamp `update_stream` writes into matching entries: from
the miniSEED 2 or miniSEED 3 fixed header, and the empty string (the
zero-initialised `timestamp[64]`) for any other payload. -/
def update_timestamp (format : Nat) (payload : List Nat) : List Char :=
  if format = SLPAYLOAD_MSEED2 then mseed2_timestamp payload
  else if format = SLPAYLOAD_MSEED3 then mseed3_timestamp payload
  else []

/-- `sl_strncpclean` (src/strutils.c lines 46–63) applied to payload
bytes: copy `len` characters dropping spaces. -/
def strncpclean (src : List Nat) (len : Nat) : List Nat :=
  (src.take len).filter (fun b => b ≠ 32)

/-- The miniSEED 2 NET_STA back-fill of src/slutils.c lines 1036–1044:
cleaned network code (offset 18, 2 bytes), `'_'`, cleaned station code
(offset 8, 5 bytes). -/
def mseed2_netstaid (payload : List Nat) : List Char :=
  (strncpclean (payload.drop 18) 2 ++ [95] ++ strncpclean (payload.drop 8) 5).map
    Char.ofNat

/-- `strchr` within a byte list starting the scan at `start`: index of
the first occurrence of `target`, stopping at the first NUL byte. -/
def strchrIdx : List Nat → Nat → Option Nat
  | [], _ => none
  | b :: bs, t =>
    if b = 0 then none
    else if b = t then some 0
    else (strchrIdx bs t).map (· + 1)

/-- `strchr (payload + start, target)` as an absolute index. -/
def strchrFrom (l : List Nat) (start target : Nat) : Option Nat :=
  (strchrIdx (l.drop start) target).map (· + start)

/-- Result of `update_stream`: the updated chain, the (possibly
back-filled) packet NET_STA ID and its length, and `ok = false` for
the `-1` "no matching entry" return. -/
structure UpdateResult where
  streams : List SLstream
  netstaid : List Char
  netstaidlength : Nat
  ok : Bool
  deriving DecidableEq, Repr

/-- `update_stream` (src/slutils.c lines 976–1131).  INFO and error
payloads update nothing (lines 997–1005).  For data payloads the
timestamp is built from the payload header; with no NET_STA ID yet the
miniSEED 2 ID is back-filled from the payload, while the miniSEED 3
FDSN-identifier branch (lines 1075–1095) computes `netstaidlength` as
`cp - payload + 40` — the offset of the second `'_'` plus 40 — and its
copy is guarded by `netstaidlength < 22`, which that value never
satisfies, so only the length changes.  A uni-station head entry is
updated unconditionally; otherwise every entry whose pattern
glob-matches the packet ID is updated, and zero matches is the `-1`
error. -/
def update_stream (format subformat seqnum : Nat) (netstaid : List Char)
    (netstaidlength : Nat) (payload : List Nat) (streams : List SLstream) :
    UpdateResult :=
  if format = SLPAYLOAD_MSEED2INFO ∨ format = SLPAYLOAD_MSEED2INFOTERM ∨
      (format = SLPAYLOAD_JSON ∧
        (subformat = SLPAYLOAD_JSON_INFO ∨ subformat = SLPAYLOAD_JSON_ERROR)) then
    ⟨streams, netstaid, netstaidlength, true⟩
  else
    let timestamp := update_timestamp format payload
    let ns : List Char × Nat :=
      if format = SLPAYLOAD_MSEED2 ∧ netstaidlength = 0 then
        let n := mseed2_netstaid payload
        (n, n.length)
      else if format = SLPAYLOAD_MSEED3 ∧ netstaidlength = 0 ∧
          10 < byteAt payload 33 ∧ (payload.drop 40).take 5 = [70, 68, 83, 78, 58] then
        match strchrFrom payload 45 95 with
        | some i1 =>
          match strchrFrom payload (i1 + 1) 95 with
          | some i2 => (netstaid, i2 + 40)
          | none => (netstaid, netstaidlength)
        | none => (netstaid, netstaidlength)
      else (netstaid, netstaidlength)
    match streams with
    | [] => ⟨[], ns.1, ns.2, false⟩
    | head :: rest =>
      if head.netstaid = UNINETSTAID then
        ⟨{ head with seqnum := seqnum, timestamp := timestamp } :: rest,
          ns.1, ns.2, true⟩
      else
        ⟨(head :: rest).map (fun st =>
            if sl_globmatch ns.1 st.netstaid then
              { st with seqnum := seqnum, timestamp := timestamp }
            else st),
          ns.1, ns.2,
          (head :: rest).any (fun st => sl_globmatch ns.1 st.netstaid)⟩

/-- **Claim C2** (confirmed).  For a received data packet (format not
INFO and not a JSON INFO/error payload) whose NET_STA ID is already
set (`netstaidlength ≠ 0`, as for every v4 packet with an ID and every
v3 miniSEED 2 packet after back-fill): when the head entry is the
uni-station sentinel `XX_UNI` — by the data-model invariant the only
entry it can then have — that entry is updated for any packet;
otherwise every entry whose pattern glob-matches the packet ID gets
the packet's sequence number and timestamp, non-matching entries are
unchanged, and the result is the error return exactly when zero
entries match. -/
theorem C2_update_stream_glob_update (format subformat seqnum : Nat)
    (nsid : List Char) (nslen : Nat) (payload : List Nat)
    (streams : List SLstream)
    (hfmt : ¬(format = SLPAYLOAD_MSEED2INFO ∨ format = SLPAYLOAD_MSEED2INFOTERM ∨
      (format = SLPAYLOAD_JSON ∧
        (subformat = SLPAYLOAD_JSON_INFO ∨ subformat = SLPAYLOAD_JSON_ERROR))))
    (hlen : nslen ≠ 0) :
    (∀ uniE rest, streams = uniE :: rest → uniE.netstaid = UNINETSTAID →
      update_stream format subformat seqnum nsid nslen payload streams =
        ⟨{ uniE with
            seqnum := seqnum
            timestamp := update_timestamp format payload } :: rest,
          nsid, nslen, true⟩) ∧
    (∀ head rest, streams = head :: rest → head.netstaid ≠ UNINETSTAID →
      update_stream format subformat seqnum nsid nslen payload streams =
        ⟨streams.map (fun st =>
            if sl_globmatch nsid st.netstaid then
              { st with
                seqnum := seqnum
                timestamp := update_timestamp format payload }
            else st),
          nsid, nslen,
          streams.any (fun st => sl_globmatch nsid st.netstaid)⟩) ∧
    (∀ head rest, streams = head :: rest → head.netstaid ≠ UNINETSTAID →
      ((update_stream format subformat seqnum nsid nslen payload streams).ok = false ↔
        ∀ st ∈ streams, ¬ sl_globmatch nsid st.netstaid)) := by
  have hns : (if format = SLPAYLOAD_MSEED2 ∧ nslen = 0 then
        let n := mseed2_netstaid payload
        (n, n.length)
      else if format = SLPAYLOAD_MSEED3 ∧ nslen = 0 ∧
          10 < byteAt payload 33 ∧ (payload.drop 40).take 5 = [70, 68, 83, 78, 58] then
        match strchrFrom payload 45 95 with
        | some i1 =>
          match strchrFrom payload (i1 + 1) 95 with
          | some i2 => (nsid, i2 + 40)
          | none => (nsid, nslen)
        | none => (nsid, nslen)
      else (nsid, nslen)) = (nsid, nslen) := by
    rw [if_neg (by tauto), if_neg (by tauto)]
  refine ⟨?_, ?_, ?_⟩
  · rintro uniE rest rfl huni
    unfold update_stream
    rw [if_neg hfmt]
    simp only [hns]
    rw [if_pos huni]
  · rintro head rest rfl hnotuni
    unfold update_stream
    rw [if_neg hfmt]
    simp only [hns]
    rw [if_neg hnotuni]
  · rintro head rest rfl hnotuni
    unfold update_stream
    rw [if_neg hfmt]
    simp only [hns]
    rw [if_neg hnotuni]
    simp [List.any_eq_true]

/-- Witness for C2: a miniSEED 2 packet for `IU_ANMO` with sequence 7
updates both the exact entry `IU_ANMO` and the wildcard entry `IU_*`
(both glob-match), and the result is not the error return. -/
theorem C2_update_stream_glob_update_witness :
    update_stream SLPAYLOAD_MSEED2 0 7 ("IU_ANMO".data) 7 []
        [⟨"IU_ANMO".data, none, 1, []⟩, ⟨"IU_*".data, none, 2, []⟩] =
      ⟨[(⟨"IU_ANMO".data, none, 1, []⟩ : SLstream),
        ⟨"IU_*".data, none, 2, []⟩].map (fun st =>
          if sl_globmatch ("IU_ANMO".data) st.netstaid then
            { st with
              seqnum := 7
              timestamp := update_timestamp SLPAYLOAD_MSEED2 [] }
          else st),
        "IU_ANMO".data, 7,
        [(⟨"IU_ANMO".data, none, 1, []⟩ : SLstream),
          ⟨"IU_*".data, none, 2, []⟩].any
            (fun st => sl_globmatch ("IU_ANMO".data) st.netstaid)⟩ :=
  (C2_update_stream_glob_update SLPAYLOAD_MSEED2 0 7 ("IU_ANMO".data) 7 []
      [⟨"IU_ANMO".data, none, 1, []⟩, ⟨"IU_*".data, none, 2, []⟩]
      (by decide) (by decide)).2.1 _ _ rfl (by decide)

/-! ## `sl_isodatetime` (src/genutils.c lines 302–382)

Character-by-character conversion of a date-time string to ISO-8601
form: digits and the delimiters `-`, `T`, `:`, `.`, `Z` pass through,
commas are converted positionally, anything else is an error; a `Z` is
appended when the string has a time portion (three or more delimiters
seen) and does not already end in `Z`. -/

/-- Acceptable pass-through delimiter (src/genutils.c lines 321–325). -/
def isoDelim (c : Char) : Bool :=
  c = '-' || c = 'T' || c = ':' || c = '.' || c = 'Z'

/-- The conversion loop: returns the converted characters and the final
delimiter count, `none` on an unconvertible character. -/
def isoGo : List Char → Nat → Option (List Char × Nat)
  | [], d => some ([], d)
  | c :: cs, d =>
    if c.isDigit then (isoGo cs d).map (fun r => (c :: r.1, r.2))
    else if isoDelim c then (isoGo cs (d + 1)).map (fun r => (c :: r.1, r.2))
    else if c = ',' then
      let nd := d + 1
      let repl : Option Char :=
        if nd = 1 ∨ nd = 2 then some '-'
        else if nd = 3 then some 'T'
        else if nd = 4 ∨ nd = 5 then some ':'
        else if nd = 6 then some '.'
        else none
      match repl with
      | none => none
      | some r => (isoGo cs nd).map (fun p => (r :: p.1, p.2))
    else none

/-- `sl_isodatetime` (src/genutils.c lines 302–382); `none` is the NULL
error return. -/
def sl_isodatetime (datetime : List Char) : Option (List Char) :=
  (isoGo datetime 0).map fun r =>
    if 3 ≤ r.2 ∧ r.1.getLast? ≠ some 'Z' then r.1 ++ ['Z'] else r.1

example : sl_isodatetime "2021,11,19,17,23,18".data =
    some "2021-11-19T17:23:18Z".data := by decide
example : sl_isodatetime "2024-01-02T03:04:05.123Z".data =
    some "2024-01-02T03:04:05.123Z".data := by decide
example : sl_isodatetime "bogus".data = none := by decide

/-! ## `sl_addstream` (src/slutils.c lines 1342–1419) and claim C9 -/

/-- The entry-building tail of `sl_addstream` (src/slutils.c lines
1371–1418): truncate the station ID to the 21 characters its field
holds and the timestamp to 30, normalise a non-empty timestamp with
`sl_isodatetime` (error when it cannot be parsed), and link the new
entry after the last entry of the chain. -/
def sl_addstream_append (streams : List SLstream) (netstaid : List Char)
    (selectors : Option (List Char)) (seqnum : Nat)
    (timestamp : Option (List Char)) : Option (List SLstream) :=
  let ts0 : List Char :=
    match timestamp with
    | none => []
    | some t => t.take 30
  match ts0 with
  | [] => some (streams ++ [⟨netstaid.take 21, selectors, seqnum, []⟩])
  | t0 :: trest =>
    match sl_isodatetime (t0 :: trest) with
    | none => none
    | some ts1 => some (streams ++ [⟨netstaid.take 21, selectors, seqnum, ts1⟩])

/-- `sl_addstream` (src/slutils.c lines 1342–1419): reject when the
head entry is the uni-station sentinel (lines 1353–1362, which check
only the first entry), otherwise append the new entry at the tail. -/
def sl_addstream (streams : List SLstream) (netstaid : List Char)
    (selectors : Option (List Char)) (seqnum : Nat)
    (timestamp : Option (List Char)) : Option (List SLstream) :=
  match streams with
  | head :: rest =>
    if head.netstaid = UNINETSTAID then none
    else sl_addstream_append (head :: rest) netstaid selectors seqnum timestamp
  | [] => sl_addstream_append [] netstaid selectors seqnum timestamp

/-- Claim C9's derived priority (spec section 3): 1 for a pattern with
no wildcard, 2 with only `?`, 3 with `*`. -/
def specPriority (p : List Char) : Nat :=
  if '*' ∈ p then 3 else if '?' ∈ p then 2 else 1

/-- Claim C9's sort order on the table: priority ascending, then
station ID ascending. -/
def specSorted (l : List SLstream) : Prop :=
  l.Chain' (fun a b =>
    specPriority a.netstaid < specPriority b.netstaid ∨
      (specPriority a.netstaid = specPriority b.netstaid ∧
        (⟨a.netstaid⟩ : String) ≤ ⟨b.netstaid⟩))

instance (l : List SLstream) : Decidable (specSorted l) := by
  unfold specSorted
  infer_instance

/-- **Claim C9** (corrected): counterexample.  Adding `IU_*` and then
`IU_ANMO` to an empty table leaves the table in insertion order
`[IU_*, IU_ANMO]` — priority 3 before priority 1 — not sorted by
`(priority asc, station_id asc)`: `sl_addstream` has no sorted-insert
logic at all. -/
theorem C9_addstream_sorted_counterexample :
    sl_addstream [] ("IU_*".data) none SL_UNSETSEQUENCE none =
      some [⟨"IU_*".data, none, SL_UNSETSEQUENCE, []⟩] ∧
    sl_addstream [⟨"IU_*".data, none, SL_UNSETSEQUENCE, []⟩] ("IU_ANMO".data)
        none SL_UNSETSEQUENCE none =
      some [⟨"IU_*".data, none, SL_UNSETSEQUENCE, []⟩,
            ⟨"IU_ANMO".data, none, SL_UNSETSEQUENCE, []⟩] ∧
    ¬ specSorted [⟨"IU_*".data, none, SL_UNSETSEQUENCE, []⟩,
                  ⟨"IU_ANMO".data, none, SL_UNSETSEQUENCE, []⟩] := by
  refine ⟨by decide, by decide, ?_⟩
  intro h
  unfold specSorted at h
  rw [List.chain'_cons] at h
  have h1 := h.1
  revert h1
  decide

/-- **Claim C9** (corrected): amended claim.  Each `sl_addstream`
appends the new entry at the end of the chain (after rejecting the add
when a uni-station entry is configured), so the table preserves
insertion order and is not kept sorted by `(priority, station_id)`. -/
theorem C9_addstream_appends (streams : List SLstream) (netstaid : List Char)
    (selectors : Option (List Char)) (seqnum : Nat)
    (hhead : ∀ head rest, streams = head :: rest → head.netstaid ≠ UNINETSTAID) :
    sl_addstream streams netstaid selectors seqnum none =
      some (streams ++ [⟨netstaid.take 21, selectors, seqnum, []⟩]) := by
  match streams with
  | [] => rfl
  | head :: rest =>
    show (if head.netstaid = UNINETSTAID then none
          else sl_addstream_append (head :: rest) netstaid selectors seqnum none) = _
    rw [if_neg (hhead head rest rfl)]
    rfl

/-- Witness for C9's amended claim: appending `GE_APE` after `IU_ANMO`
keeps insertion order. -/
theorem C9_addstream_appends_witness :
    sl_addstream [⟨"IU_ANMO".data, none, 5, []⟩] ("GE_APE".data) none 9 none =
      some ([⟨"IU_ANMO".data, none, 5, []⟩] ++
        [⟨"GE_APE".data.take 21, none, 9, []⟩]) :=
  C9_addstream_appends [⟨"IU_ANMO".data, none, 5, []⟩] ("GE_APE".data) none 9
    (by intro head rest h; cases h; decide)

/-! ## State file: `sl_savestate` / `sl_recoverstate` (src/statefile.c)

The state file is modelled as the list of its lines, each line as the
character list `fgets` returns (content including the trailing
newline).  `sl_savestate` writes one line per stream entry with
`snprintf (line, 200, …)`; with the `netstaid` (≤ 21 chars) and
`timestamp` (≤ 30 chars) field bounds the 200-byte line buffer never
truncates, and truncation is not modelled.  `sl_recoverstate` reads
lines, splits each into at most five whitespace-separated fields,
parses the station ID / sequence / timestamp, and updates the first
matching entry of the stream chain. -/

/-- C `isspace` for the byte values the state file can contain. -/
def isspaceC (c : Char) : Bool :=
  c = ' ' || c = '\t' || c = '\n' || c = '\r' ||
    c = Char.ofNat 11 || c = Char.ofNat 12

/-- The field-splitting loop of src/statefile.c lines 149–165: record
the start of every maximal run of non-space characters, converting the
spaces between them to NULs, stopping after five fields.  `acc` holds
the current run reversed, `nf` the number of fields started; the loop
exits the moment a fifth field starts, so that field extends to the
end of the line (no further space conversion). -/
def fieldsGo : List Char → List Char → Nat → List (List Char)
  | [], acc, _ => if acc = [] then [] else [acc.reverse]
  | c :: cs, acc, nf =>
    if isspaceC c then
      if acc = [] then fieldsGo cs [] nf
      else acc.reverse :: fieldsGo cs [] nf
    else
      if acc = [] then
        if nf = 4 then [c :: cs]
        else fieldsGo cs [c] (nf + 1)
      else fieldsGo cs (c :: acc) nf

/-- `strtoull (…, 10)`'s digit accumulation: consume decimal digits
from the front, stop at the first non-digit (the `*endptr` check at
src/statefile.c line 216 only logs; the prefix value is used
regardless).  Leading whitespace and signs, which saved state files
never contain, are not modelled. -/
def parseDecGo : List Char → Nat → Nat
  | [], acc => acc
  | c :: cs, acc =>
    if c.isDigit then parseDecGo cs (acc * 10 + (c.toNat - 48)) else acc

/-- One saved line (src/statefile.c lines 61–71): `NET_STA`, the
sequence number in decimal or `-1` for `SL_UNSETSEQUENCE`, and the
timestamp (possibly empty), separated by single spaces, newline
terminated. -/
def savestate_line (st : SLstream) : List Char :=
  st.netstaid ++ [' '] ++
    (if st.seqnum = SL_UNSETSEQUENCE then ['-', '1'] else decChars st.seqnum) ++
    [' '] ++ st.timestamp ++ ['\n']

/-- `sl_savestate` (src/statefile.c lines 40–89): one line per entry in
chain order. -/
def sl_savestate (streams : List SLstream) : List (List Char) :=
  streams.map savestate_line

/-- Update the first entry whose `netstaid` equals the parsed station
ID (src/statefile.c lines 224–238): set its sequence number, copy the
timestamp when one was parsed, and stop. -/
def updateFirst : List SLstream → List Char → Nat → Option (List Char) →
    List SLstream
  | [], _, _, _ => []
  | st :: rest, nsid, sq, ts? =>
    if st.netstaid = nsid then
      { st with
        seqnum := sq
        timestamp := match ts? with | some t => t | none => st.timestamp } :: rest
    else st :: updateFirst rest nsid sq ts?

/-- Outcome of processing one state-file line. -/
inductive RecoverLineResult where
  /-- Line consumed (possibly updating the chain); keep reading. -/
  | updated (streams : List SLstream) : RecoverLineResult
  /-- Unparsable field count (`fields < 3` without a `NET_STA` field):
  `break` out of the read loop, successful return. -/
  | stop : RecoverLineResult
  /-- Unparsable timestamp: the `-1` error return. -/
  | err : RecoverLineResult

/-- Sequence-string interpretation (src/statefile.c lines 208–221):
`-1`-prefixed means `SL_UNSETSEQUENCE`, else the decimal prefix
value. -/
def recover_seqnum (seqstr : List Char) : Nat :=
  if seqstr.get? 0 = some '-' ∧ seqstr.get? 1 = some '1' then SL_UNSETSEQUENCE
  else parseDecGo seqstr 0

/-- The per-line body of `sl_recoverstate`'s read loop (src/statefile.c
lines 142–241): tokenize; empty lines continue; a first field
containing `'_'` with at least two fields is the new format, three or
more fields without it the legacy `NET STA seq [time]` format (the ID
rebuilt as `NET_STA`, truncated to 21 characters), anything else
breaks the loop; the timestamp (when present) is normalised by
`sl_isodatetime`, whose failure aborts with an error; the first
matching chain entry is updated. -/
def recover_line (streams : List SLstream) (line : List Char) : RecoverLineResult :=
  let process (netstastr seqstr : List Char) (timestr : Option (List Char)) :
      RecoverLineResult :=
    match timestr with
    | some t =>
      match sl_isodatetime t with
      | some t' =>
        .updated (updateFirst streams netstastr (recover_seqnum seqstr) (some t'))
      | none => .err
    | none => .updated (updateFirst streams netstastr (recover_seqnum seqstr) none)
  match fieldsGo line [] 0 with
  | [] => .updated streams
  | [f0] => if '_' ∈ f0 then .stop else .stop
  | [f0, f1] => if '_' ∈ f0 then process f0 f1 none else .stop
  | f0 :: f1 :: f2 :: rest =>
    if '_' ∈ f0 then process f0 f1 (some f2)
    else process ((f0 ++ ['_'] ++ f1).take 21) f2 rest.head?

/-- The read loop of `sl_recoverstate` over the file's lines; `none` is
the `-1` error return. -/
def recoverGo : List (List Char) → List SLstream → Option (List SLstream)
  | [], sts => some sts
  | ln :: rest, sts =>
    match recover_line sts ln with
    | .updated sts' => recoverGo rest sts'
    | .stop => some sts
    | .err => none

/-- `sl_recoverstate` (src/statefile.c lines 102–255) on an existing,
readable state file given as its lines. -/
def sl_recoverstate (lines : List (List Char)) (streams : List SLstream) :
    Option (List SLstream) :=
  recoverGo lines streams

/-! ### Decimal round trip and character facts for the state file -/

lemma digitChar_isDigit {d : Nat} (hd : d < 10) : (digitChar d).isDigit = true := by
  interval_cases d <;> decide

lemma digitChar_toNat {d : Nat} (hd : d < 10) : (digitChar d).toNat = 48 + d := by
  interval_cases d <;> decide

lemma digitsAux_all_digits :
    ∀ fuel n, n ≤ fuel → ∀ c ∈ digitsAux 10 fuel n, c.isDigit = true := by
  intro fuel
  induction fuel with
  | zero => intro n _ c hc; simp [digitsAux] at hc
  | succ fuel ih =>
    intro n hn c hc
    match n, hc with
    | 0, hc => simp [digitsAux] at hc
    | m + 1, hc =>
      rw [show digitsAux 10 (fuel + 1) (m + 1) =
          digitsAux 10 fuel ((m + 1) / 10) ++ [digitChar ((m + 1) % 10)] from rfl] at hc
      rcases List.mem_append.mp hc with h | h
      · exact ih ((m + 1) / 10) (by omega) c h
      · rcases List.mem_singleton.mp h with rfl
        exact digitChar_isDigit (Nat.mod_lt _ (by omega))

lemma decChars_all_digits (n : Nat) : ∀ c ∈ decChars n, c.isDigit = true := by
  intro c hc
  unfold decChars at hc
  by_cases hn : n = 0
  · simp [hn] at hc
    subst hc
    decide
  · rw [if_neg hn] at hc
    exact digitsAux_all_digits n n le_rfl c hc

lemma decChars_ne_nil (n : Nat) : decChars n ≠ [] := by
  unfold decChars
  by_cases hn : n = 0
  · simp [hn]
  · rw [if_neg hn]
    match n, hn with
    | m + 1, _ =>
      rw [show digitsAux 10 (m + 1) (m + 1) =
          digitsAux 10 m ((m + 1) / 10) ++ [digitChar ((m + 1) % 10)] from rfl]
      simp

lemma isDigit_not_space {c : Char} (h : c.isDigit = true) : isspaceC c = false := by
  unfold isspaceC
  by_contra hcon
  simp only [Bool.not_eq_false, Bool.or_eq_true, decide_eq_true_eq] at hcon
  rcases hcon with ((((rfl | rfl) | rfl) | rfl) | rfl) | rfl <;> simp at h

lemma isDigit_ne_dash {c : Char} (h : c.isDigit = true) : c ≠ '-' := by
  rintro rfl
  simp at h

lemma parseDecGo_append (xs ys : List Char) :
    ∀ acc, (∀ c ∈ xs, c.isDigit = true) →
      parseDecGo (xs ++ ys) acc = parseDecGo ys (parseDecGo xs acc) := by
  induction xs with
  | nil => intro acc _; rfl
  | cons x xs ih =>
    intro acc hx
    have hxd : x.isDigit = true := hx x (by simp)
    have h1 : parseDecGo ((x :: xs) ++ ys) acc =
        parseDecGo (xs ++ ys) (acc * 10 + (x.toNat - 48)) := by
      show parseDecGo (x :: (xs ++ ys)) acc = _
      rw [show parseDecGo (x :: (xs ++ ys)) acc =
        if x.isDigit = true then parseDecGo (xs ++ ys) (acc * 10 + (x.toNat - 48))
        else acc from rfl, if_pos hxd]
    have h2 : parseDecGo (x :: xs) acc =
        parseDecGo xs (acc * 10 + (x.toNat - 48)) := by
      rw [show parseDecGo (x :: xs) acc =
        if x.isDigit = true then parseDecGo xs (acc * 10 + (x.toNat - 48))
        else acc from rfl, if_pos hxd]
    rw [h1, h2, ih _ (fun c hc => hx c (by simp [hc]))]

lemma parseDecGo_digitsAux :
    ∀ fuel n acc, n ≤ fuel →
      parseDecGo (digitsAux 10 fuel n) acc =
        acc * 10 ^ (digitsAux 10 fuel n).length + n := by
  intro fuel
  induction fuel with
  | zero =>
    intro n acc hn
    interval_cases n
    simp [digitsAux, parseDecGo]
  | succ fuel ih =>
    intro n acc hn
    match n with
    | 0 => simp [digitsAux, parseDecGo]
    | m + 1 =>
      rw [show digitsAux 10 (fuel + 1) (m + 1) =
          digitsAux 10 fuel ((m + 1) / 10) ++ [digitChar ((m + 1) % 10)] from rfl]
      rw [parseDecGo_append _ _ _
        (digitsAux_all_digits fuel ((m + 1) / 10) (by omega))]
      rw [ih ((m + 1) / 10) acc (by omega)]
      have hmod : (m + 1) % 10 < 10 := Nat.mod_lt _ (by omega)
      show parseDecGo [digitChar ((m + 1) % 10)] _ = _
      unfold parseDecGo
      rw [if_pos (digitChar_isDigit hmod)]
      show (acc * 10 ^ (digitsAux 10 fuel ((m + 1) / 10)).length + (m + 1) / 10) * 10 +
          ((digitChar ((m + 1) % 10)).toNat - 48) = _
      rw [digitChar_toNat hmod]
      rw [List.length_append, List.length_singleton, pow_succ]
      have := Nat.div_add_mod (m + 1) 10
      ring_nf
      omega

lemma parseDecGo_decChars (n : Nat) : parseDecGo (decChars n) 0 = n := by
  unfold decChars
  by_cases hn : n = 0
  · simp [hn, parseDecGo]
  · rw [if_neg hn, parseDecGo_digitsAux n n 0 le_rfl]
    simp

/-! ### Tokenization of a saved line -/

lemma fieldsGo_in_field (w : List Char) :
    ∀ rest acc nf, (∀ c ∈ w, isspaceC c = false) → acc ≠ [] →
      fieldsGo (w ++ rest) acc nf = fieldsGo rest (w.reverse ++ acc) nf := by
  induction w with
  | nil => intro rest acc nf _ _; simp
  | cons c w ih =>
    intro rest acc nf hw hacc
    have hc : isspaceC c = false := hw c (by simp)
    show fieldsGo (c :: (w ++ rest)) acc nf = _
    rw [show fieldsGo (c :: (w ++ rest)) acc nf =
      if isspaceC c = true then
        (if acc = [] then fieldsGo (w ++ rest) [] nf
         else acc.reverse :: fieldsGo (w ++ rest) [] nf)
      else
        (if acc = [] then
          (if nf = 4 then [c :: (w ++ rest)] else fieldsGo (w ++ rest) [c] (nf + 1))
         else fieldsGo (w ++ rest) (c :: acc) nf) from rfl]
    rw [if_neg (by simp [hc]), if_neg hacc,
      ih rest (c :: acc) nf (fun x hx => hw x (by simp [hx])) (by simp)]
    simp

lemma fieldsGo_start_field (w : List Char) (rest : List Char) (nf : Nat)
    (hw : ∀ c ∈ w, isspaceC c = false) (hne : w ≠ []) (hnf : nf ≤ 3) :
    fieldsGo (w ++ rest) [] nf = fieldsGo rest w.reverse (nf + 1) := by
  match w, hne with
  | c :: w', _ =>
    have hc : isspaceC c = false := hw c (by simp)
    show fieldsGo (c :: (w' ++ rest)) [] nf = _
    rw [show fieldsGo (c :: (w' ++ rest)) [] nf =
      if isspaceC c = true then fieldsGo (w' ++ rest) [] nf
      else
        (if nf = 4 then [c :: (w' ++ rest)] else fieldsGo (w' ++ rest) [c] (nf + 1))
      from by simp [fieldsGo]]
    rw [if_neg (by simp [hc]), if_neg (by omega),
      fieldsGo_in_field w' rest [c] (nf + 1) (fun x hx => hw x (by simp [hx]))
        (by simp)]
    simp

lemma fieldsGo_space_flush (rest acc : List Char) (nf : Nat) (hacc : acc ≠ []) :
    fieldsGo (' ' :: rest) acc nf = acc.reverse :: fieldsGo rest [] nf := by
  rw [show fieldsGo (' ' :: rest) acc nf =
    if isspaceC ' ' = true then
      (if acc = [] then fieldsGo rest [] nf else acc.reverse :: fieldsGo rest [] nf)
    else
      (if acc = [] then (if nf = 4 then [' ' :: rest] else fieldsGo rest [' '] (nf + 1))
       else fieldsGo rest (' ' :: acc) nf) from rfl]
  rw [if_pos (by decide), if_neg hacc]

lemma fields_of_saved_line (nsid seqstr ts : List Char)
    (hn : nsid ≠ []) (hnsp : ∀ c ∈ nsid, isspaceC c = false)
    (hs : seqstr ≠ []) (hssp : ∀ c ∈ seqstr, isspaceC c = false)
    (htsp : ∀ c ∈ ts, isspaceC c = false) :
    fieldsGo (nsid ++ [' '] ++ seqstr ++ [' '] ++ ts ++ ['\n']) [] 0 =
      if ts = [] then [nsid, seqstr] else [nsid, seqstr, ts] := by
  have h1 : nsid ++ [' '] ++ seqstr ++ [' '] ++ ts ++ ['\n'] =
      nsid ++ (' ' :: (seqstr ++ (' ' :: (ts ++ ['\n'])))) := by simp
  rw [h1, fieldsGo_start_field nsid _ 0 hnsp hn (by omega),
    fieldsGo_space_flush _ _ _ (by simp [hn]),
    fieldsGo_start_field seqstr _ 1 hssp hs (by omega),
    fieldsGo_space_flush _ _ _ (by simp [hs])]
  simp only [List.reverse_reverse]
  by_cases hts : ts = []
  · subst hts
    simp [fieldsGo, isspaceC]
  · rw [if_neg hts,
      fieldsGo_start_field ts _ 2 htsp hts (by omega),
      show fieldsGo ['\n'] ts.reverse 3 =
        ts.reverse.reverse :: fieldsGo [] [] 3 from by
          rw [show fieldsGo ['\n'] ts.reverse 3 =
            if isspaceC '\n' = true then
              (if ts.reverse = [] then fieldsGo [] [] 3
               else ts.reverse.reverse :: fieldsGo [] [] 3)
            else
              (if ts.reverse = [] then
                (if (3 : Nat) = 4 then [['\n']] else fieldsGo [] ['\n'] 4)
               else fieldsGo [] ('\n' :: ts.reverse) 3) from rfl]
          rw [if_pos (by decide), if_neg (by simp [hts])]]
    simp [fieldsGo]

/-! ### `sl_isodatetime` is the identity on well-formed ISO strings -/

lemma isoGo_passthrough (l : List Char) :
    ∀ d, (∀ c ∈ l, c.isDigit = true ∨ isoDelim c = true) →
      ∃ k, isoGo l d = some (l, k) := by
  induction l with
  | nil => intro d _; exact ⟨d, rfl⟩
  | cons c cs ih =>
    intro d hl
    rcases hl c (by simp) with hd | hdel
    · obtain ⟨k, hk⟩ := ih d (fun x hx => hl x (by simp [hx]))
      refine ⟨k, ?_⟩
      unfold isoGo
      rw [if_pos hd, hk]
      rfl
    · have hnd : c.isDigit = false ∨ c.isDigit = true := by
        cases h : c.isDigit
        · exact Or.inl rfl
        · exact Or.inr rfl
      rcases hnd with hnd | hnd
      · obtain ⟨k, hk⟩ := ih (d + 1) (fun x hx => hl x (by simp [hx]))
        refine ⟨k, ?_⟩
        unfold isoGo
        rw [if_neg (by simp [hnd]), if_pos hdel, hk]
        rfl
      · obtain ⟨k, hk⟩ := ih d (fun x hx => hl x (by simp [hx]))
        refine ⟨k, ?_⟩
        unfold isoGo
        rw [if_pos hnd, hk]
        rfl

lemma sl_isodatetime_id (l : List Char)
    (hl : ∀ c ∈ l, c.isDigit = true ∨ isoDelim c = true)
    (hz : l.getLast? = some 'Z') :
    sl_isodatetime l = some l := by
  obtain ⟨k, hk⟩ := isoGo_passthrough l 0 hl
  unfold sl_isodatetime
  rw [hk]
  show some (if 3 ≤ k ∧ l.getLast? ≠ some 'Z' then l ++ ['Z'] else l) = some l
  rw [if_neg (by simp [hz])]

/-! ### The save/recover round trip (claim C3) -/

/-- The well-formedness the claim assumes of a table entry: a nonempty
station ID containing `'_'` with no whitespace and fitting its 22-byte
field, and a timestamp fitting its 31-byte field that is either empty
or a digit/delimiter string ending in `'Z'` (as every timestamp the
library itself stores is). -/
def statefileRoundtripReady (st : SLstream) : Prop :=
  st.netstaid ≠ [] ∧ '_' ∈ st.netstaid ∧ (∀ c ∈ st.netstaid, isspaceC c = false) ∧
    st.netstaid.length ≤ 21 ∧ st.timestamp.length ≤ 30 ∧
    (st.timestamp = [] ∨
      ((∀ c ∈ st.timestamp, c.isDigit = true ∨ isoDelim c = true) ∧
        st.timestamp.getLast? = some 'Z'))

instance (st : SLstream) : Decidable (statefileRoundtripReady st) := by
  unfold statefileRoundtripReady
  infer_instance

lemma seqstr_ne_nil (n : Nat) :
    (if n = SL_UNSETSEQUENCE then ['-', '1'] else decChars n) ≠ [] := by
  by_cases h : n = SL_UNSETSEQUENCE
  · simp [h]
  · rw [if_neg h]
    exact decChars_ne_nil n

lemma seqstr_no_space (n : Nat) :
    ∀ c ∈ (if n = SL_UNSETSEQUENCE then ['-', '1'] else decChars n),
      isspaceC c = false := by
  intro c hc
  by_cases h : n = SL_UNSETSEQUENCE
  · rw [if_pos h] at hc
    simp only [List.mem_cons, List.mem_singleton, List.not_mem_nil, or_false] at hc
    rcases hc with rfl | rfl <;> decide
  · rw [if_neg h] at hc
    exact isDigit_not_space (decChars_all_digits n c hc)

lemma isoChar_no_space {c : Char} (h : c.isDigit = true ∨ isoDelim c = true) :
    isspaceC c = false := by
  rcases h with h | h
  · exact isDigit_not_space h
  · unfold isoDelim at h
    simp only [Bool.or_eq_true, decide_eq_true_eq] at h
    rcases h with (((rfl | rfl) | rfl) | rfl) | rfl <;> decide

lemma recover_seqnum_saved (n : Nat) :
    recover_seqnum (if n = SL_UNSETSEQUENCE then ['-', '1'] else decChars n) = n := by
  by_cases h : n = SL_UNSETSEQUENCE
  · rw [if_pos h, h]
    decide
  · rw [if_neg h]
    unfold recover_seqnum
    rw [if_neg, parseDecGo_decChars]
    rintro ⟨h0, _⟩
    have hmem : '-' ∈ decChars n := List.get?_mem h0
    exact absurd rfl (isDigit_ne_dash (decChars_all_digits n '-' hmem))

lemma recover_line_saved (tbl : List SLstream) (st : SLstream)
    (hn : st.netstaid ≠ []) (hu : '_' ∈ st.netstaid)
    (hnsp : ∀ c ∈ st.netstaid, isspaceC c = false)
    (hts : st.timestamp = [] ∨
      ((∀ c ∈ st.timestamp, c.isDigit = true ∨ isoDelim c = true) ∧
        st.timestamp.getLast? = some 'Z')) :
    recover_line tbl (savestate_line st) =
      .updated (updateFirst tbl st.netstaid st.seqnum
        (if st.timestamp = [] then none else some st.timestamp)) := by
  have htsp : ∀ c ∈ st.timestamp, isspaceC c = false := by
    intro c hc
    rcases hts with h | ⟨h, _⟩
    · rw [h] at hc; simp at hc
    · exact isoChar_no_space (h c hc)
  have hfields := fields_of_saved_line st.netstaid
    (if st.seqnum = SL_UNSETSEQUENCE then ['-', '1'] else decChars st.seqnum)
    st.timestamp hn hnsp (seqstr_ne_nil st.seqnum) (seqstr_no_space st.seqnum) htsp
  unfold recover_line
  rw [show savestate_line st = st.netstaid ++ [' '] ++
      (if st.seqnum = SL_UNSETSEQUENCE then ['-', '1'] else decChars st.seqnum) ++
      [' '] ++ st.timestamp ++ ['\n'] from rfl]
  rw [hfields]
  by_cases hempty : st.timestamp = []
  · rw [if_pos hempty]
    simp only [if_pos hempty]
    rw [if_pos hu, recover_seqnum_saved]
  · rw [if_neg hempty]
    simp only [if_neg hempty]
    rcases hts with h | ⟨hchars, hz⟩
    · exact absurd h hempty
    rw [if_pos hu]
    show (match sl_isodatetime st.timestamp with
      | some t' => RecoverLineResult.updated
          (updateFirst tbl st.netstaid
            (recover_seqnum (if st.seqnum = SL_UNSETSEQUENCE then ['-', '1']
              else decChars st.seqnum)) (some t'))
      | none => RecoverLineResult.err) = _
    rw [sl_isodatetime_id st.timestamp hchars hz, recover_seqnum_saved]

lemma updateFirst_cons (st : SLstream) (rest : List SLstream)
    (nsid : List Char) (sq : Nat) (ts? : Option (List Char)) :
    updateFirst (st :: rest) nsid sq ts? =
      if st.netstaid = nsid then
        { st with
          seqnum := sq
          timestamp := match ts? with | some t => t | none => st.timestamp } :: rest
      else st :: updateFirst rest nsid sq ts? := rfl

lemma updateFirst_append (done : List SLstream) (l : List SLstream)
    (nsid : List Char) (sq : Nat) (ts? : Option (List Char))
    (h : ∀ e ∈ done, e.netstaid ≠ nsid) :
    updateFirst (done ++ l) nsid sq ts? = done ++ updateFirst l nsid sq ts? := by
  induction done with
  | nil => simp
  | cons d done ih =>
    show updateFirst (d :: (done ++ l)) nsid sq ts? = _
    rw [updateFirst_cons, if_neg (h d (by simp)),
      ih (fun e he => h e (by simp [he]))]
    simp

lemma updateFirst_self (st : SLstream) (rest : List SLstream) :
    updateFirst (st :: rest) st.netstaid st.seqnum
      (if st.timestamp = [] then none else some st.timestamp) = st :: rest := by
  obtain ⟨ns, sel, sq, tsp⟩ := st
  rw [updateFirst_cons, if_pos rfl]
  by_cases h : tsp = [] <;> simp [h]

lemma recoverGo_saved (ts : List SLstream) :
    ∀ done : List SLstream,
      (∀ st ∈ ts, statefileRoundtripReady st) →
      (∀ d ∈ done, ∀ t ∈ ts, d.netstaid ≠ t.netstaid) →
      ts.Pairwise (fun a b => a.netstaid ≠ b.netstaid) →
      recoverGo (sl_savestate ts) (done ++ ts) = some (done ++ ts) := by
  induction ts with
  | nil => intro done _ _ _; rfl
  | cons st rest ih =>
    intro done hwf hdone hpw
    obtain ⟨hn, hu, hnsp, _, _, hts⟩ := hwf st (by simp)
    show recoverGo (savestate_line st :: sl_savestate rest) (done ++ st :: rest) = _
    unfold recoverGo
    rw [recover_line_saved (done ++ st :: rest) st hn hu hnsp hts]
    rw [updateFirst_append done (st :: rest) st.netstaid st.seqnum _
      (fun e he => hdone e he st (by simp))]
    rw [updateFirst_self st rest]
    show recoverGo (sl_savestate rest) (done ++ st :: rest) = _
    have hre : done ++ st :: rest = (done ++ [st]) ++ rest := by simp
    rw [hre]
    rw [List.pairwise_cons] at hpw
    exact ih (done ++ [st]) (fun s hs => hwf s (by simp [hs]))
      (by
        intro d hd t ht
        rcases List.mem_append.mp hd with hd | hd
        · exact hdone d hd t (by simp [ht])
        · rcases List.mem_singleton.mp hd with rfl
          exact hpw.1 t ht)
      hpw.2

/-- **Claim C3** (corrected): counterexample.  With two entries sharing
the station ID `IU_ANMO` (which `sl_addstream` permits — it does no
duplicate checking), saving and recovering is not the identity:
`sl_recoverstate` updates only the *first* entry matching each line,
so both lines land on the first entry and the table ends as
`[(IU_ANMO, 7), (IU_ANMO, 7)]` instead of `[(IU_ANMO, 5),
(IU_ANMO, 7)]`. -/
theorem C3_statefile_roundtrip_counterexample :
    sl_recoverstate
        (sl_savestate [⟨"IU_ANMO".data, none, 5, []⟩, ⟨"IU_ANMO".data, none, 7, []⟩])
        [⟨"IU_ANMO".data, none, 5, []⟩, ⟨"IU_ANMO".data, none, 7, []⟩] =
      some [⟨"IU_ANMO".data, none, 7, []⟩, ⟨"IU_ANMO".data, none, 7, []⟩] ∧
    ([(⟨"IU_ANMO".data, none, 7, []⟩ : SLstream), ⟨"IU_ANMO".data, none, 7, []⟩] ≠
      [⟨"IU_ANMO".data, none, 5, []⟩, ⟨"IU_ANMO".data, none, 7, []⟩]) := by
  constructor
  · decide
  · decide

/-- **Claim C3** (corrected): amended claim.  For every stream table
whose entries have well-formed timestamps and station IDs containing
`'_'`, *and whose station IDs are pairwise distinct*, `sl_savestate`
followed by `sl_recoverstate` is the identity on each entry's
`(station_id, seqnum, timestamp)` projection (here: on the entries
themselves, since recovery touches nothing else); the `UNSET` sequence
sentinel is written as `-1` and read back as `UNSET`. -/
theorem C3_statefile_roundtrip (tbl : List SLstream)
    (hwf : ∀ st ∈ tbl, statefileRoundtripReady st)
    (hdist : tbl.Pairwise (fun a b => a.netstaid ≠ b.netstaid)) :
    sl_recoverstate (sl_savestate tbl) tbl = some tbl ∧
    (∀ st : SLstream, st.seqnum = SL_UNSETSEQUENCE →
      savestate_line st =
        st.netstaid ++ [' '] ++ ['-', '1'] ++ [' '] ++ st.timestamp ++ ['\n']) ∧
    recover_seqnum ['-', '1'] = SL_UNSETSEQUENCE := by
  refine ⟨?_, ?_, by decide⟩
  · have := recoverGo_saved tbl [] hwf (by simp) hdist
    simpa [sl_recoverstate] using this
  · intro st hst
    unfold savestate_line
    rw [if_pos hst]

/-- Witness for C3's amended claim on a concrete two-entry table with
distinct station IDs, one entry carrying `UNSET` and an empty
timestamp. -/
theorem C3_statefile_roundtrip_witness :
    sl_recoverstate
        (sl_savestate [⟨"IU_ANMO".data, none, 100, "2024-01-02T03:04:05.123Z".data⟩,
          ⟨"GE_APE".data, none, SL_UNSETSEQUENCE, []⟩])
        [⟨"IU_ANMO".data, none, 100, "2024-01-02T03:04:05.123Z".data⟩,
          ⟨"GE_APE".data, none, SL_UNSETSEQUENCE, []⟩] =
      some [⟨"IU_ANMO".data, none, 100, "2024-01-02T03:04:05.123Z".data⟩,
        ⟨"GE_APE".data, none, SL_UNSETSEQUENCE, []⟩] :=
  (C3_statefile_roundtrip
    [⟨"IU_ANMO".data, none, 100, "2024-01-02T03:04:05.123Z".data⟩,
      ⟨"GE_APE".data, none, SL_UNSETSEQUENCE, []⟩]
    (by decide) (by decide)).1

/-! ## Negotiation (src/network.c) and claims C1, C6

The action-command builders of `negotiate_uni_v3` (lines 1154–1231)
and `negotiate_v4` (lines 1728–1768), and the accept/skip/fail control
flow of `negotiate_multi_v3` (lines 1257–1570) and `negotiate_v4`
(lines 1774–1869).  Commands are the `sprintf`-built strings; server
replies are abstracted as `ok` (`"OK\r\n"`), `error` (`"ERROR…"`), or
`invalid` (anything else), with a missing reply standing for a
`sl_recvresp` read failure. -/

/-- `sprintf "%0" PRIX64` of a `uint64` value, as a string. -/
def hexStr (n : Nat) : String := ⟨hexChars n⟩

/-- `sprintf "%" PRIu64 ` of a `uint64` value, as a string. -/
def decStr (n : Nat) : String := ⟨decChars n⟩

/-- Modelled from the spec: `sl_checkversion`, declared in
src/libslink.h but defined in no src file.  Per the spec's version
gates ("available only when server v ≥ 2.92" and kin) it compares the
connection's protocol version with the given `major.minor`:
positive/zero/negative for newer/equal-or-newer-minor/older. -/
def sl_checkversion (protoMajor protoMinor major minor : Nat) : Int :=
  if major < protoMajor then 1
  else if protoMajor = major ∧ minor ≤ protoMinor then 0
  else -1

/-- The `DATA`/`FETCH`/`TIME` action-command selection of
`negotiate_uni_v3` (src/network.c lines 1154–1231).  `none` models the
version-gated `TIME` branch that logs and leaves `sendstr` unset
(lines 1173–1178), after which the function sends indeterminate buffer
contents.  The sequence number is incremented in `uint64` arithmetic
and printed with `"%0" PRIX64` (uppercase hexadecimal); timestamps are
truncated by the `%.30s` width. -/
def negotiate_uni_v3_actioncmd (protoMajor protoMinor : Nat)
    (dialup lastpkttime resume : Bool) (begin_time end_time : Option String)
    (seqnum : Nat) (timestamp : String) : Option String :=
  match begin_time with
  | some bt =>
    if 0 ≤ sl_checkversion protoMajor protoMinor 2 92 then
      match end_time with
      | none => some ("TIME " ++ bt.take 30 ++ "\r")
      | some et => some ("TIME " ++ bt.take 30 ++ " " ++ et.take 30 ++ "\r")
    else none
  | none =>
    if seqnum ≠ SL_UNSETSEQUENCE ∧ resume then
      let cmd := if dialup then "FETCH" else "DATA"
      if lastpkttime ∧ 0 ≤ sl_checkversion protoMajor protoMinor 2 93 ∧
          timestamp ≠ "" then
        some (cmd ++ " " ++ hexStr ((seqnum + 1) % 2 ^ 64) ++ " " ++
          timestamp.take 30 ++ "\r")
      else
        some (cmd ++ " " ++ hexStr ((seqnum + 1) % 2 ^ 64) ++ "\r")
    else
      some ((if dialup then "FETCH" else "DATA") ++ "\r")

/-- The `DATA`/`FETCH` command generation of `negotiate_v4`
(src/network.c lines 1728–1768): decimal sequence number incremented
in `uint64` arithmetic; with the `TIME` capability and a time window,
the window is appended (the source's format string
`"%s %" PRIu64 "%s%s%s\r"` puts no space between the sequence number
and the begin time), and `-1` stands for an unset sequence. -/
def negotiate_v4_datacmd (time_capability dialup : Bool)
    (begin_time end_time : Option String) (seqnum : Nat) : String :=
  let cmd := if dialup then "FETCH" else "DATA"
  match begin_time, time_capability with
  | some bt, true =>
    if seqnum ≠ SL_UNSETSEQUENCE then
      cmd ++ " " ++ decStr ((seqnum + 1) % 2 ^ 64) ++ bt ++
        (match end_time with | some et => " " ++ et | none => "") ++ "\r"
    else
      cmd ++ " -1 " ++ bt ++
        (match end_time with | some et => " " ++ et | none => "") ++ "\r"
  | _, _ =>
    if seqnum ≠ SL_UNSETSEQUENCE then
      cmd ++ " " ++ decStr ((seqnum + 1) % 2 ^ 64) ++ "\r"
    else
      cmd ++ "\r"

/-- **Claim C1** (confirmed).  For a stream-table entry whose last-seen
sequence number `n` is not the `UNSET` sentinel, when renegotiating
with resumption enabled (`resume` set) and no time window, the
negotiator issues a `DATA` (`FETCH` in dialup mode) command whose
sequence argument is `n + 1`: hexadecimal for protocol v3 (with the
last-packet timestamp appended when that feature applies), decimal
for protocol v4 (where the `resume` flag is not consulted, so the
claim's hypothesis is vacuous there). -/
theorem C1_resume_next_sequence (protoMajor protoMinor : Nat)
    (dialup lastpkttime tc : Bool) (seqnum : Nat) (timestamp : String)
    (et : Option String)
    (hseq : seqnum ≠ SL_UNSETSEQUENCE) (hlt : seqnum < 2 ^ 64) :
    (negotiate_uni_v3_actioncmd protoMajor protoMinor dialup lastpkttime true
        none et seqnum timestamp =
          some ((if dialup then "FETCH" else "DATA") ++ " " ++ hexStr (seqnum + 1) ++
            "\r") ∨
     negotiate_uni_v3_actioncmd protoMajor protoMinor dialup lastpkttime true
        none et seqnum timestamp =
          some ((if dialup then "FETCH" else "DATA") ++ " " ++ hexStr (seqnum + 1) ++
            " " ++ timestamp.take 30 ++ "\r")) ∧
    negotiate_v4_datacmd tc dialup none et seqnum =
      (if dialup then "FETCH" else "DATA") ++ " " ++ decStr (seqnum + 1) ++ "\r" := by
  have hmod : (seqnum + 1) % 2 ^ 64 = seqnum + 1 := by
    apply Nat.mod_eq_of_lt
    have : seqnum ≠ 2 ^ 64 - 1 := by
      intro h
      exact hseq (by rw [h]; rfl)
    omega
  constructor
  · unfold negotiate_uni_v3_actioncmd
    rw [if_pos ⟨hseq, rfl⟩]
    by_cases hl : lastpkttime ∧ 0 ≤ sl_checkversion protoMajor protoMinor 2 93 ∧
        timestamp ≠ ""
    · right
      rw [if_pos hl, hmod]
    · left
      rw [if_neg hl, hmod]
  · unfold negotiate_v4_datacmd
    match tc with
    | true =>
      show (if seqnum ≠ SL_UNSETSEQUENCE then _ else _) = _
      rw [if_pos hseq, hmod]
    | false =>
      show (if seqnum ≠ SL_UNSETSEQUENCE then _ else _) = _
      rw [if_pos hseq, hmod]

/-- Witness for C1 at `n = 100`: the v3 command resumes at hexadecimal
`65`, the v4 command at decimal `101` (no dialup, no last-packet-time,
protocol 3.1 / no TIME window). -/
theorem C1_resume_next_sequence_witness :
    (negotiate_uni_v3_actioncmd 3 1 false false true none none 100 "" =
        some ((if false then "FETCH" else "DATA") ++ " " ++ hexStr 101 ++ "\r") ∨
     negotiate_uni_v3_actioncmd 3 1 false false true none none 100 "" =
        some ((if false then "FETCH" else "DATA") ++ " " ++ hexStr 101 ++ " " ++
          "".take 30 ++ "\r")) ∧
    negotiate_v4_datacmd false false none none 100 =
      (if false then "FETCH" else "DATA") ++ " " ++ decStr 101 ++ "\r" :=
  C1_resume_next_sequence 3 1 false false false 100 "" none (by decide) (by decide)

/-! ### Negotiation accept/skip/fail control flow (claim C6) -/

/-- A server reply to one negotiation command. -/
inductive Reply where
  /-- `"OK\r\n"`. -/
  | ok : Reply
  /-- `"ERROR…\r\n"`. -/
  | error : Reply
  /-- Anything else (invalid response). -/
  | invalid : Reply
  deriving DecidableEq, Repr

/-- A subscription as network.c's stream chain holds it (`net`, `sta`,
optional space-separated selector string, sequence number). -/
structure V4Stream where
  net : String
  sta : String
  selectors : Option String
  seqnum : Nat
  deriving DecidableEq, Repr

/-- The pipelined command list `negotiate_v4` builds (src/network.c
lines 1624–1772): per stream a `STATION NET_STA` command, one `SELECT`
per space-separated selector, and one `DATA`/`FETCH` command. -/
def v4_commands (time_capability dialup : Bool) (bt et : Option String)
    (streams : List V4Stream) : List String :=
  (streams.map fun st =>
    ("STATION " ++ st.net ++ "_" ++ st.sta ++ "\r") ::
      ((match st.selectors with
        | none => []
        | some sel => (spaceTokens sel.data).map
            (fun s => "SELECT " ++ (⟨s⟩ : String) ++ "\r")) ++
        [negotiate_v4_datacmd time_capability dialup bt et st.seqnum])).flatten

/-- The response loop of `negotiate_v4` (src/network.c lines
1800–1843): one reply per command in order; a missing reply is a
`sl_recvresp` failure (`none`, immediate `-1`); `ERROR` and invalid
replies are counted. -/
def v4_count_errors : List String → List Reply → Option Nat
  | [], _ => some 0
  | _ :: _, [] => none
  | _ :: cmds, r :: rs =>
    (v4_count_errors cmds rs).map (fun n => if r = .ok then n else n + 1)

/-- The result of `negotiate_v4` (src/network.c lines 1845–1869):
success iff every command was answered and none with an error
(`return (errorcnt) ? -1 : slconn->link`). -/
def negotiate_v4_result (time_capability dialup : Bool) (bt et : Option String)
    (streams : List V4Stream) (replies : List Reply) : Bool :=
  match v4_count_errors (v4_commands time_capability dialup bt et streams) replies with
  | none => false
  | some n => n = 0

/-- The replies scripted for one stream in a v3 multi-station
negotiation: the `STATION` reply, the `SELECT` replies in order, and
the `DATA`/`FETCH`/`TIME` reply. -/
structure V3Replies where
  station : Reply
  selects : List Reply
  action : Reply
  deriving DecidableEq, Repr

/-- The selector loop of `negotiate_multi_v3` (src/network.c lines
1338–1421): count accepted selectors; an `ERROR` reply just skips the
selector, an invalid reply or a missing one aborts the connection. -/
def v3_select_phase : List (List Char) → List Reply → Option Nat
  | [], _ => some 0
  | _ :: _, [] => none
  | _ :: toks, r :: rs =>
    match r with
    | .ok => (v3_select_phase toks rs).map (· + 1)
    | .error => v3_select_phase toks rs
    | .invalid => none

/-- The per-stream walk of `negotiate_multi_v3` (src/network.c lines
1275–1570), with batch mode off: an `ERROR` reply to `STATION` skips
the subscription; an accepted station whose selector phase accepts
zero of a non-empty selector list is fatal (lines 1406–1412); an
`ERROR` reply to the action command only logs; invalid replies are
fatal; at the end the connection fails unless at least one station
was accepted (`acceptsta`), which the `some` value counts. -/
def negotiate_multi_v3_run : List (V4Stream × V3Replies) → Nat → Option Nat
  | [], acceptsta => if acceptsta = 0 then none else some acceptsta
  | (st, rs) :: rest, acceptsta =>
    match rs.station with
    | .invalid => none
    | .error => negotiate_multi_v3_run rest acceptsta
    | .ok =>
      let selPhase : Option Bool :=
        match st.selectors with
        | none => some true
        | some sel =>
          match v3_select_phase (spaceTokens sel.data) rs.selects with
          | none => none
          | some 0 => some false
          | some (_ + 1) => some true
      match selPhase with
      | none => none
      | some false => none
      | some true =>
        match rs.action with
        | .invalid => none
        | _ => negotiate_multi_v3_run rest (acceptsta + 1)

lemma v4_count_errors_spec (cmds : List String) :
    ∀ rs : List Reply, cmds.length ≤ rs.length →
      v4_count_errors cmds rs =
        some (((rs.take cmds.length).filter (fun r => r ≠ .ok)).length) := by
  induction cmds with
  | nil => intro rs _; rfl
  | cons c cmds ih =>
    intro rs hlen
    match rs with
    | [] =>
      rw [List.length_cons, List.length_nil] at hlen
      omega
    | r :: rs' =>
      show (v4_count_errors cmds rs').map _ = _
      rw [ih rs' (by simpa using hlen)]
      simp only [Option.map]
      by_cases hr : r = Reply.ok
      · simp [hr, List.filter]
      · simp [hr, List.filter_cons]

lemma negotiate_multi_v3_run_stations (streams : List (V4Stream × V3Replies))
    (hsel : ∀ p ∈ streams, p.1.selectors = none)
    (hsta : ∀ p ∈ streams, p.2.station = .ok ∨ p.2.station = .error)
    (hact : ∀ p ∈ streams, p.2.action ≠ .invalid) :
    ∀ acceptsta : Nat,
      negotiate_multi_v3_run streams acceptsta =
        (if acceptsta + (streams.filter (fun p => p.2.station = .ok)).length = 0
         then none
         else some (acceptsta +
           (streams.filter (fun p => p.2.station = .ok)).length)) := by
  induction streams with
  | nil => intro a; simp [negotiate_multi_v3_run]
  | cons p rest ih =>
    intro a
    obtain ⟨st, rs⟩ := p
    have hsel0 : st.selectors = none := hsel (st, rs) (by simp)
    have hact0 : rs.action ≠ .invalid := hact (st, rs) (by simp)
    rcases hsta (st, rs) (by simp) with hok | herr
    · have hok' : rs.station = Reply.ok := hok
      show (match rs.station with
        | .invalid => none
        | .error => negotiate_multi_v3_run rest a
        | .ok => _) = _
      rw [hok]
      simp only [hsel0]
      have hrest := ih (fun q hq => hsel q (by simp [hq]))
        (fun q hq => hsta q (by simp [hq])) (fun q hq => hact q (by simp [hq]))
        (a + 1)
      have hfil : List.filter (fun p => decide (p.2.station = Reply.ok))
          ((st, rs) :: rest) =
          (st, rs) :: List.filter (fun p => decide (p.2.station = Reply.ok)) rest := by
        simp [List.filter_cons, hok']
      have hlen1 : a + 1 +
          (List.filter (fun p => decide (p.2.station = Reply.ok)) rest).length =
          a + ((List.filter (fun p => decide (p.2.station = Reply.ok)) rest).length
            + 1) := by omega
      match rs.action, hact0 with
      | .ok, _ =>
        show negotiate_multi_v3_run rest (a + 1) = _
        rw [hrest, hfil]
        simp only [List.length_cons]
        rw [hlen1]
      | .error, _ =>
        show negotiate_multi_v3_run rest (a + 1) = _
        rw [hrest, hfil]
        simp only [List.length_cons]
        rw [hlen1]
    · show (match rs.station with
        | .invalid => none
        | .error => negotiate_multi_v3_run rest a
        | .ok => _) = _
      rw [herr]
      show negotiate_multi_v3_run rest a = _
      rw [ih (fun q hq => hsel q (by simp [hq])) (fun q hq => hsta q (by simp [hq]))
        (fun q hq => hact q (by simp [hq])) a]
      simp only [List.filter_cons]
      rw [herr]
      simp

lemma v3_select_phase_all_error (toks : List (List Char)) :
    ∀ rs : List Reply, rs.length = toks.length → (∀ r ∈ rs, r = .error) →
      v3_select_phase toks rs = some 0 := by
  induction toks with
  | nil => intro rs h _; match rs, h with | [], _ => rfl
  | cons t toks ih =>
    intro rs hlen herr
    match rs with
    | [] => simp at hlen
    | r :: rs' =>
      have : r = Reply.error := herr r (by simp)
      subst this
      show v3_select_phase toks rs' = some 0
      exact ih rs' (by simpa using hlen) (fun x hx => herr x (by simp [hx]))

/-- **Claim C6** (corrected): counterexample.  Under protocol v4 with
two subscriptions (`IU_ANMO` and `GE_APE`, no selectors), an `ERROR`
reply to the first `STATION` command makes the whole negotiation fail
(`errorcnt` nonzero ⇒ `return -1`) even though the second
subscription's replies are all `OK` — the claim's "only that
subscription is skipped … the connection fails only if all
subscriptions fail" does not hold for v4.  With all replies `OK` the
same negotiation succeeds, isolating the failure to the one `ERROR`. -/
theorem C6_error_reply_counterexample :
    negotiate_v4_result false false none none
        [⟨"IU", "ANMO", none, SL_UNSETSEQUENCE⟩,
         ⟨"GE", "APE", none, SL_UNSETSEQUENCE⟩]
        [.error, .ok, .ok, .ok] = false ∧
    negotiate_v4_result false false none none
        [⟨"IU", "ANMO", none, SL_UNSETSEQUENCE⟩,
         ⟨"GE", "APE", none, SL_UNSETSEQUENCE⟩]
        [.ok, .ok, .ok, .ok] = true := by
  constructor <;> decide

/-- **Claim C6** (corrected): amended claim.  In v3 multi-station
negotiation an `ERROR` reply to a `STATION` command skips only that
subscription and the connection fails exactly when no station is
accepted; however, an `ERROR` reply to a `SELECT` command is fatal for
the whole connection when all of that subscription's selectors are
rejected; and under protocol v4 a single `ERROR` (or invalid) reply to
any pipelined command — `STATION`, `SELECT`, or `DATA`/`FETCH` — makes
the entire negotiation fail even when other subscriptions succeed. -/
theorem C6_error_reply_amended
    (streams : List (V4Stream × V3Replies))
    (hsel : ∀ p ∈ streams, p.1.selectors = none)
    (hsta : ∀ p ∈ streams, p.2.station = .ok ∨ p.2.station = .error)
    (hact : ∀ p ∈ streams, p.2.action ≠ .invalid)
    (st : V4Stream) (rs : V3Replies) (rest : List (V4Stream × V3Replies))
    (sel : String) (_hselne : spaceTokens sel.data ≠ [])
    (hst : st.selectors = some sel) (hrsok : rs.station = .ok)
    (hlen : rs.selects.length = (spaceTokens sel.data).length)
    (hallerr : ∀ r ∈ rs.selects, r = .error)
    (tc dialup : Bool) (bt et : Option String) (replies : List Reply)
    (hrep : (v4_commands tc dialup bt et (streams.map Prod.fst)).length ≤
      replies.length) :
    (negotiate_multi_v3_run streams 0 = none ↔
      ∀ p ∈ streams, p.2.station = .error) ∧
    (negotiate_multi_v3_run streams 0 ≠ none →
      negotiate_multi_v3_run streams 0 =
        some (streams.filter (fun p => p.2.station = .ok)).length) ∧
    negotiate_multi_v3_run ((st, rs) :: rest) 0 = none ∧
    (negotiate_v4_result tc dialup bt et (streams.map Prod.fst) replies = true ↔
      ∀ r ∈ replies.take
        (v4_commands tc dialup bt et (streams.map Prod.fst)).length, r = .ok) := by
  have hmain := negotiate_multi_v3_run_stations streams hsel hsta hact 0
  refine ⟨?_, ?_, ?_, ?_⟩
  · rw [hmain]
    constructor
    · intro h
      by_cases hz : (streams.filter (fun p => p.2.station = .ok)).length = 0
      · intro p hp
        rcases hsta p hp with hok | herr
        · exfalso
          have : p ∈ streams.filter (fun p => p.2.station = .ok) := by
            rw [List.mem_filter]
            exact ⟨hp, by simp [hok]⟩
          rw [List.length_eq_zero] at hz
          rw [hz] at this
          simp at this
        · exact herr
      · rw [if_neg (by omega)] at h
        simp at h
    · intro h
      rw [if_pos]
      have : streams.filter (fun p => p.2.station = .ok) = [] := by
        rw [List.filter_eq_nil_iff]
        intro p hp
        rw [h p hp]
        simp
      simp [this]
  · intro hne
    rw [hmain] at hne ⊢
    by_cases hz : (streams.filter (fun p => p.2.station = .ok)).length = 0
    · rw [if_pos (by omega)] at hne
      exact absurd rfl hne
    · rw [if_neg (by omega)]
      simp
  · show (match rs.station with
      | .invalid => none
      | .error => negotiate_multi_v3_run rest 0
      | .ok => _) = _
    rw [hrsok]
    simp only [hst]
    rw [v3_select_phase_all_error (spaceTokens sel.data) rs.selects hlen hallerr]
  · unfold negotiate_v4_result
    rw [v4_count_errors_spec _ replies hrep]
    simp [List.length_eq_zero, List.filter_eq_nil_iff]

/-- Witness for C6's amended claim: one station skipped by an `ERROR`
reply, one accepted (`negotiate_multi_v3_run` yields 1); a
subscription whose single selector is rejected is fatal; and v4
succeeds on the all-`OK` reply script. -/
theorem C6_error_reply_amended_witness :
    (negotiate_multi_v3_run
        [(⟨"IU", "ANMO", none, SL_UNSETSEQUENCE⟩, ⟨.error, [], .ok⟩),
         (⟨"GE", "APE", none, SL_UNSETSEQUENCE⟩, ⟨.ok, [], .ok⟩)] 0 = none ↔
      ∀ p ∈ [((⟨"IU", "ANMO", none, SL_UNSETSEQUENCE⟩ : V4Stream),
          (⟨.error, [], .ok⟩ : V3Replies)),
         (⟨"GE", "APE", none, SL_UNSETSEQUENCE⟩, ⟨.ok, [], .ok⟩)],
        p.2.station = .error) ∧
    (negotiate_multi_v3_run
        [(⟨"IU", "ANMO", none, SL_UNSETSEQUENCE⟩, ⟨.error, [], .ok⟩),
         (⟨"GE", "APE", none, SL_UNSETSEQUENCE⟩, ⟨.ok, [], .ok⟩)] 0 ≠ none →
      negotiate_multi_v3_run
        [(⟨"IU", "ANMO", none, SL_UNSETSEQUENCE⟩, ⟨.error, [], .ok⟩),
         (⟨"GE", "APE", none, SL_UNSETSEQUENCE⟩, ⟨.ok, [], .ok⟩)] 0 =
        some ([((⟨"IU", "ANMO", none, SL_UNSETSEQUENCE⟩ : V4Stream),
            (⟨.error, [], .ok⟩ : V3Replies)),
           (⟨"GE", "APE", none, SL_UNSETSEQUENCE⟩, ⟨.ok, [], .ok⟩)].filter
          (fun p => p.2.station = .ok)).length) ∧
    negotiate_multi_v3_run
        [(⟨"SV", "SEL", some "BH?", SL_UNSETSEQUENCE⟩, ⟨.ok, [.error], .ok⟩)] 0 =
      none ∧
    (negotiate_v4_result false false none none
        [⟨"IU", "ANMO", none, SL_UNSETSEQUENCE⟩,
         ⟨"GE", "APE", none, SL_UNSETSEQUENCE⟩]
        [.ok, .ok, .ok, .ok] = true ↔
      ∀ r ∈ [Reply.ok, Reply.ok, Reply.ok, Reply.ok].take
        (v4_commands false false none none
          [⟨"IU", "ANMO", none, SL_UNSETSEQUENCE⟩,
           ⟨"GE", "APE", none, SL_UNSETSEQUENCE⟩]).length, r = .ok) :=
  C6_error_reply_amended
    [(⟨"IU", "ANMO", none, SL_UNSETSEQUENCE⟩, ⟨.error, [], .ok⟩),
     (⟨"GE", "APE", none, SL_UNSETSEQUENCE⟩, ⟨.ok, [], .ok⟩)]
    (by decide) (by decide) (by decide)
    ⟨"SV", "SEL", some "BH?", SL_UNSETSEQUENCE⟩ ⟨.ok, [.error], .ok⟩ []
    "BH?" (by decide) (by decide) (by decide) (by decide) (by decide)
    false false none none [.ok, .ok, .ok, .ok] (by decide)

end Libslink
